import Mathlib

/-!
Verification of the music-catalog data-access layer of this repository.

The repository holds two parallel console applications over the same
relational schema: `db_Assignment_no_orm.py` (raw parameterized SQL against
PostgreSQL) and `db_arrignment_orm.py` (a SQLAlchemy mapping layer).  This
file shallowly embeds each variant's data model and repository operations as
pure Lean functions over an in-memory database state, and proves the spec's
claims about them.

Modelling conventions:
* each table is a `List` of row structures; SERIAL primary keys are modelled
  by `nextId` (one more than the maximum id in use, monotone fresh ids);
* server-clock timestamp columns (`created_at`, `added_at`, `played_at`,
  `liked_at`, `followed_at`, `commented_at`) carry no information relevant to
  any claim and are omitted from the rows;
* every operation takes the pre-state and its (already prompted) field values
  and returns the post-state paired with a `Report` describing the console
  outcome; the Python code runs each operation inside one transaction with
  rollback on error, so an error report is always paired with the unchanged
  pre-state;
* PostgreSQL constraint failures surfaced as `psycopg2.Error` /
  SQLAlchemy errors are modelled by explicit checks mirroring the schema's
  UNIQUE, CHECK and FOREIGN KEY (no ON DELETE action, hence restrict)
  constraints declared in `create_tables` / the mapped classes.
-/

/-- A `users` row (`id SERIAL, username UNIQUE, email UNIQUE, password`). -/
structure UserRow where
  id : Nat
  username : String
  email : String
  password : String
deriving DecidableEq, Repr

/-- An `artists` row (`id SERIAL, name, bio TEXT` nullable). -/
structure ArtistRow where
  id : Nat
  name : String
  bio : Option String
deriving DecidableEq, Repr

/-- An `albums` row (`id SERIAL, title, artist_id REFERENCES artists,
release_date DATE` nullable; the date is modelled as its string form). -/
structure AlbumRow where
  id : Nat
  title : String
  artist_id : Nat
  release_date : Option String
deriving DecidableEq, Repr

/-- A `songs` row (`id SERIAL, title, album_id REFERENCES albums,
duration INTEGER` nullable, `file_path`). -/
structure SongRow where
  id : Nat
  title : String
  album_id : Nat
  duration : Option Int
  file_path : String
deriving DecidableEq, Repr

/-- A `playlists` row (`id SERIAL, name, user_id REFERENCES users`). -/
structure PlaylistRow where
  id : Nat
  name : String
  user_id : Nat
deriving DecidableEq, Repr

/-- A `playlist_songs` row (composite key `(playlist_id, song_id)`). -/
structure PlaylistSongRow where
  playlist_id : Nat
  song_id : Nat
deriving DecidableEq, Repr

/-- A `play_history` row (`id SERIAL, user_id, song_id`). -/
structure PlayHistoryRow where
  id : Nat
  user_id : Nat
  song_id : Nat
deriving DecidableEq, Repr

/-- A `song_ratings` row (composite key `(user_id, song_id)`,
`rating INTEGER CHECK (rating >= 1 AND rating <= 5)`). -/
structure RatingRow where
  user_id : Nat
  song_id : Nat
  rating : Int
deriving DecidableEq, Repr

/-- A `song_likes` row (composite key `(user_id, song_id)`). -/
structure LikeRow where
  user_id : Nat
  song_id : Nat
deriving DecidableEq, Repr

/-- An `artist_follows` row (composite key `(user_id, artist_id)`). -/
structure FollowRow where
  user_id : Nat
  artist_id : Nat
deriving DecidableEq, Repr

/-- A `song_comments` row (`id SERIAL, user_id, song_id, comment`). -/
structure CommentRow where
  id : Nat
  user_id : Nat
  song_id : Nat
  comment : String
deriving DecidableEq, Repr

/-- The eleven-table database state provisioned by `create_tables` in the
raw-query variant `db_Assignment_no_orm.py`. -/
structure DB where
  users : List UserRow := []
  artists : List ArtistRow := []
  albums : List AlbumRow := []
  songs : List SongRow := []
  playlists : List PlaylistRow := []
  playlist_songs : List PlaylistSongRow := []
  play_history : List PlayHistoryRow := []
  song_ratings : List RatingRow := []
  song_likes : List LikeRow := []
  artist_follows : List FollowRow := []
  song_comments : List CommentRow := []
deriving DecidableEq, Repr

/-- The eight-table database state mapped by `Base.metadata.create_all` in the
object-relational variant `db_arrignment_orm.py`: that variant declares no
likes, follows or comments models at all. -/
structure OrmDB where
  users : List UserRow := []
  artists : List ArtistRow := []
  albums : List AlbumRow := []
  songs : List SongRow := []
  playlists : List PlaylistRow := []
  playlist_songs : List PlaylistSongRow := []
  play_history : List PlayHistoryRow := []
  song_ratings : List RatingRow := []
deriving DecidableEq, Repr

/-- Console outcome of one repository operation, classifying the messages the
source prints.  `conflict` covers the spec's `ConflictError` class (§7): an
explicit integrity-rule refusal, a UNIQUE-constraint violation, or the ORM
variant's explicit duplicate-user check.  `fkViolation` is a FOREIGN KEY
failure surfaced as a raw storage error, `checkViolation` a CHECK-constraint
failure (classified `ValidationError` by spec §7), and `validationRefused`
a `ValueError` raised by the ORM variant's `validate_input`. -/
inductive Report where
  | ok
  | notFound
  | alreadyExists
  | conflict
  | fkViolation
  | checkViolation
  | validationRefused
deriving DecidableEq, Repr

/-- Spec §7 groups CHECK-constraint failures (out-of-range rating) and
`validate_input` refusals under `ValidationError`. -/
def Report.isValidationClass : Report → Bool
  | .checkViolation => true
  | .validationRefused => true
  | _ => false

/-- Fresh SERIAL id: one more than the largest id in use. -/
def nextId (ids : List Nat) : Nat :=
  ids.foldr (fun a b => max a b) 0 + 1

/-! ### The ORM variant's `validate_input`

`validate_input(text, max_length=100, allow_empty=False)` raises `ValueError`
when a required input strips to empty, when `len(text) > max_length`, or when
`text` contains one of the substrings `;` `--` `/*` `*/` `'` `"` `\`;
otherwise it returns `text.strip()`.  `none` models the raised `ValueError`. -/

/-- The characters Python's `str.strip()` removes (ASCII whitespace:
tab, newline, vertical tab, form feed, carriage return, space). -/
def pyWs (c : Char) : Bool :=
  c.val == 9 || c.val == 10 || c.val == 11 || c.val == 12 || c.val == 13 || c.val == 32

/-- `str.strip()` on a character list: drop whitespace from both ends. -/
def stripList (l : List Char) : List Char :=
  ((l.dropWhile pyWs).reverse.dropWhile pyWs).reverse

/-- `str.strip()`. -/
def pyStrip (s : String) : String :=
  ⟨stripList s.toList⟩

/-- `pat` is a prefix of the text. -/
def hasPrefixCh : List Char → List Char → Bool
  | [], _ => true
  | _ :: _, [] => false
  | p :: ps, t :: ts => p == t && hasPrefixCh ps ts

/-- `pat` occurs as a contiguous substring of the text
(Python's `pat in text`). -/
def hasSubCh (pat : List Char) : List Char → Bool
  | [] => hasPrefixCh pat []
  | t :: ts => hasPrefixCh pat (t :: ts) || hasSubCh pat ts

/-- The blocklist `[";", "--", "/*", "*/", "'", '"', "\\"]` from
`validate_input` (quote, double quote and backslash written by code point). -/
def sqlBlockPatterns : List (List Char) :=
  [[';'], ['-', '-'], ['/', '*'], ['*', '/'],
   [Char.ofNat 39], [Char.ofNat 34], [Char.ofNat 92]]

/-- Some blocked substring occurs in `s`. -/
def blockHit (s : String) : Bool :=
  sqlBlockPatterns.any (fun p => hasSubCh p s.toList)

/-- `validate_input` from `db_arrignment_orm.py` (lines 125-134); `none`
models the raised `ValueError`. -/
def validate_input (text : String) (maxLength : Nat) (allowEmpty : Bool) : Option String :=
  if !allowEmpty && pyStrip text == "" then none
  else if maxLength < text.length then none
  else if blockHit text then none
  else some (pyStrip text)

/-! ### Raw-query variant (`db_Assignment_no_orm.py`) operations -/

namespace NoOrm

/-- `add_user` (lines 171-190): plain INSERT; a duplicate username or email
trips the UNIQUE constraints and the transaction is not committed. -/
def add_user (db : DB) (username email password : String) : DB × Report :=
  if db.users.any (fun u => u.username == username || u.email == email) then
    (db, .conflict)
  else
    ({ db with users := db.users ++ [⟨nextId (db.users.map (·.id)), username, email, password⟩] }, .ok)

/-- `add_artist` (lines 317-335): INSERT always passes both parameters; the
bio prompt defaults to the empty string, which is inserted as-is. -/
def add_artist (db : DB) (name bio : String) : DB × Report :=
  ({ db with artists := db.artists ++ [⟨nextId (db.artists.map (·.id)), name, some bio⟩] }, .ok)

/-- `add_album` (lines 458-486): when the release-date prompt is left blank
the INSERT omits the column (NULL); a missing artist trips the FK. -/
def add_album (db : DB) (artist_id : Nat) (title release_date : String) : DB × Report :=
  if db.artists.any (fun a => a.id == artist_id) then
    ({ db with albums := db.albums ++
        [⟨nextId (db.albums.map (·.id)), title, artist_id,
          if release_date == "" then none else some release_date⟩] }, .ok)
  else
    (db, .fkViolation)

/-- `add_song` (lines 628-649): the duration prompt defaults to `"0"` and the
parsed integer is always inserted; a missing album trips the FK. -/
def add_song (db : DB) (album_id : Nat) (title : String) (duration : Int)
    (file_path : String) : DB × Report :=
  if db.albums.any (fun a => a.id == album_id) then
    ({ db with songs := db.songs ++
        [⟨nextId (db.songs.map (·.id)), title, album_id, some duration, file_path⟩] }, .ok)
  else
    (db, .fkViolation)

/-- `add_playlist` (lines 795-814). -/
def add_playlist (db : DB) (user_id : Nat) (name : String) : DB × Report :=
  if db.users.any (fun u => u.id == user_id) then
    ({ db with playlists := db.playlists ++
        [⟨nextId (db.playlists.map (·.id)), name, user_id⟩] }, .ok)
  else
    (db, .fkViolation)

/-- `add_song_to_playlist` (lines 942-967): `INSERT ... ON CONFLICT
(playlist_id, song_id) DO NOTHING`; rowcount 0 prints "already exists". -/
def add_song_to_playlist (db : DB) (playlist_id song_id : Nat) : DB × Report :=
  if db.playlist_songs.any (fun ps => ps.playlist_id == playlist_id && ps.song_id == song_id) then
    (db, .alreadyExists)
  else if db.playlists.any (fun p => p.id == playlist_id) && db.songs.any (fun s => s.id == song_id) then
    ({ db with playlist_songs := db.playlist_songs ++ [⟨playlist_id, song_id⟩] }, .ok)
  else
    (db, .fkViolation)

/-- `add_song_like` (lines 1270-1293): `ON CONFLICT (user_id, song_id)
DO NOTHING`; rowcount 0 prints "already liked". -/
def add_song_like (db : DB) (user_id song_id : Nat) : DB × Report :=
  if db.song_likes.any (fun l => l.user_id == user_id && l.song_id == song_id) then
    (db, .alreadyExists)
  else if db.users.any (fun u => u.id == user_id) && db.songs.any (fun s => s.id == song_id) then
    ({ db with song_likes := db.song_likes ++ [⟨user_id, song_id⟩] }, .ok)
  else
    (db, .fkViolation)

/-- `add_artist_follow` (lines 1380-1403): `ON CONFLICT (user_id, artist_id)
DO NOTHING`; rowcount 0 prints "already follows". -/
def add_artist_follow (db : DB) (user_id artist_id : Nat) : DB × Report :=
  if db.artist_follows.any (fun f => f.user_id == user_id && f.artist_id == artist_id) then
    (db, .alreadyExists)
  else if db.users.any (fun u => u.id == user_id) && db.artists.any (fun a => a.id == artist_id) then
    ({ db with artist_follows := db.artist_follows ++ [⟨user_id, artist_id⟩] }, .ok)
  else
    (db, .fkViolation)

/-- `add_song_comment` (lines 1490-1510). -/
def add_song_comment (db : DB) (user_id song_id : Nat) (comment : String) : DB × Report :=
  if db.users.any (fun u => u.id == user_id) && db.songs.any (fun s => s.id == song_id) then
    ({ db with song_comments := db.song_comments ++
        [⟨nextId (db.song_comments.map (·.id)), user_id, song_id, comment⟩] }, .ok)
  else
    (db, .fkViolation)

/-- The upsert's update action on one rating row. -/
def updRating (user_id song_id : Nat) (r : Int) (row : RatingRow) : RatingRow :=
  if row.user_id == user_id && row.song_id == song_id then { row with rating := r } else row

/-- `add_update_rating` (lines 1122-1145): `INSERT ... ON CONFLICT (user_id,
song_id) DO UPDATE SET rating = EXCLUDED.rating`; the CHECK constraint
`rating BETWEEN 1 AND 5` guards both paths, the FKs guard the insert path. -/
def add_update_rating (db : DB) (user_id song_id : Nat) (rating : Int) : DB × Report :=
  if db.song_ratings.any (fun x => x.user_id == user_id && x.song_id == song_id) then
    if 1 ≤ rating ∧ rating ≤ 5 then
      ({ db with song_ratings := db.song_ratings.map (updRating user_id song_id rating) }, .ok)
    else
      (db, .checkViolation)
  else if db.users.any (fun u => u.id == user_id) && db.songs.any (fun s => s.id == song_id) then
    if 1 ≤ rating ∧ rating ≤ 5 then
      ({ db with song_ratings := db.song_ratings ++ [⟨user_id, song_id, rating⟩] }, .ok)
    else
      (db, .checkViolation)
  else
    (db, .fkViolation)

/-- `delete_rating` (lines 1219-1246): DELETE by pair; rowcount 0 prints
"not found". -/
def delete_rating (db : DB) (user_id song_id : Nat) : DB × Report :=
  if db.song_ratings.any (fun x => x.user_id == user_id && x.song_id == song_id) then
    ({ db with song_ratings :=
        db.song_ratings.filter (fun x => !(x.user_id == user_id && x.song_id == song_id)) }, .ok)
  else
    (db, .notFound)

/-- `delete_user` (lines 259-289): deletes the user's playlists, play history
and ratings, then the user, in one transaction.  The playlists DELETE trips
the `playlist_songs.playlist_id` FK when a deleted playlist still has
entries; the final users DELETE trips the FKs from `song_likes`,
`artist_follows` and `song_comments`, which the cascade never touches.  Any
FK error rolls the whole transaction back; when the user does not exist the
dependent deletions are still committed and "not found" is printed. -/
def delete_user (db : DB) (user_id : Nat) : DB × Report :=
  if (db.playlists.filter (fun p => p.user_id == user_id)).any
      (fun p => db.playlist_songs.any (fun ps => ps.playlist_id == p.id)) then
    (db, .fkViolation)
  else
    let db3 : DB := { db with
      playlists := db.playlists.filter (fun p => !(p.user_id == user_id)),
      play_history := db.play_history.filter (fun h => !(h.user_id == user_id)),
      song_ratings := db.song_ratings.filter (fun r => !(r.user_id == user_id)) }
    if db.users.any (fun u => u.id == user_id) then
      if db.song_likes.any (fun l => l.user_id == user_id)
          || db.artist_follows.any (fun f => f.user_id == user_id)
          || db.song_comments.any (fun c => c.user_id == user_id) then
        (db, .fkViolation)
      else
        ({ db3 with users := db3.users.filter (fun u => !(u.id == user_id)) }, .ok)
    else
      (db3, .notFound)

/-- `delete_artist` (lines 397-430): refused outright when any album
references the artist; otherwise the DELETE trips the `artist_follows` FK
if followers remain, and rowcount 0 prints "not found". -/
def delete_artist (db : DB) (artist_id : Nat) : DB × Report :=
  if db.albums.any (fun a => a.artist_id == artist_id) then
    (db, .conflict)
  else if db.artists.any (fun a => a.id == artist_id) then
    if db.artist_follows.any (fun f => f.artist_id == artist_id) then
      (db, .fkViolation)
    else
      ({ db with artists := db.artists.filter (fun a => !(a.id == artist_id)) }, .ok)
  else
    (db, .notFound)

/-- `delete_album` (lines 567-600): refused outright when any song references
the album. -/
def delete_album (db : DB) (album_id : Nat) : DB × Report :=
  if db.songs.any (fun s => s.album_id == album_id) then
    (db, .conflict)
  else if db.albums.any (fun a => a.id == album_id) then
    ({ db with albums := db.albums.filter (fun a => !(a.id == album_id)) }, .ok)
  else
    (db, .notFound)

/-- `delete_song` (lines 737-767): deletes the song's playlist entries, play
history and ratings, then the song.  The final DELETE trips the FKs from
`song_likes` and `song_comments`, which the cascade never touches, rolling
the whole transaction back; when the song does not exist the dependent
deletions are still committed and "not found" is printed. -/
def delete_song (db : DB) (song_id : Nat) : DB × Report :=
  let db3 : DB := { db with
    playlist_songs := db.playlist_songs.filter (fun ps => !(ps.song_id == song_id)),
    play_history := db.play_history.filter (fun h => !(h.song_id == song_id)),
    song_ratings := db.song_ratings.filter (fun r => !(r.song_id == song_id)) }
  if db.songs.any (fun s => s.id == song_id) then
    if db.song_likes.any (fun l => l.song_id == song_id)
        || db.song_comments.any (fun c => c.song_id == song_id) then
      (db, .fkViolation)
    else
      ({ db3 with songs := db3.songs.filter (fun s => !(s.id == song_id)) }, .ok)
  else
    (db3, .notFound)

/-- `delete_playlist` (lines 889-917): deletes the playlist's entries, then
the playlist. -/
def delete_playlist (db : DB) (playlist_id : Nat) : DB × Report :=
  let db1 : DB := { db with
    playlist_songs := db.playlist_songs.filter (fun ps => !(ps.playlist_id == playlist_id)) }
  if db.playlists.any (fun p => p.id == playlist_id) then
    ({ db1 with playlists := db1.playlists.filter (fun p => !(p.id == playlist_id)) }, .ok)
  else
    (db1, .notFound)

end NoOrm

/-! ### Object-relational variant (`db_arrignment_orm.py`) operations

Every textual prompt result is routed through `validate_input` before use;
existence of referenced rows is checked by explicit queries rather than left
to FK errors.  The variant's schema has no likes, follows or comments
tables. -/

namespace Orm

/-- `add_user` (lines 185-208): validates the three inputs, then refuses when
any existing user already holds the username or email, else inserts. -/
def add_user (db : OrmDB) (username email password : String) : OrmDB × Report :=
  match validate_input username 100 false, validate_input email 100 false,
      validate_input password 100 false with
  | some uV, some eV, some pV =>
    if db.users.any (fun u => u.username == uV || u.email == eV) then
      (db, .conflict)
    else
      ({ db with users := db.users ++ [⟨nextId (db.users.map (·.id)), uV, eV, pV⟩] }, .ok)
  | _, _, _ => (db, .validationRefused)

/-- `add_artist` (lines 334-351): an empty (falsy) bio is stored as
`None`. -/
def add_artist (db : OrmDB) (name bio : String) : OrmDB × Report :=
  match validate_input name 100 false, validate_input bio 100 true with
  | some nV, some bV =>
    ({ db with artists := db.artists ++
        [⟨nextId (db.artists.map (·.id)), nV, if bV == "" then none else some bV⟩] }, .ok)
  | _, _ => (db, .validationRefused)

/-- `add_album` (lines 464-504): a blank release date is stored as `None`;
the artist must exist.  (The `strptime` format check on non-blank dates is
outside the scope of the claims and is not modelled; dates are kept as
strings.) -/
def add_album (db : OrmDB) (artist_id : Nat) (title release_date : String) : OrmDB × Report :=
  match validate_input title 100 false, validate_input release_date 100 true with
  | some tV, some rV =>
    if db.artists.any (fun a => a.id == artist_id) then
      ({ db with albums := db.albums ++
          [⟨nextId (db.albums.map (·.id)), tV, artist_id,
            if rV == "" then none else some rV⟩] }, .ok)
    else
      (db, .notFound)
  | _, _ => (db, .validationRefused)

/-- `add_song` (lines 648-682): the duration prompt defaults to `"0"` and the
parsed integer is always stored; the album must exist. -/
def add_song (db : OrmDB) (album_id : Nat) (title : String) (duration : Int)
    (file_path : String) : OrmDB × Report :=
  match validate_input title 100 false, validate_input file_path 100 false with
  | some tV, some fV =>
    if db.albums.any (fun a => a.id == album_id) then
      ({ db with songs := db.songs ++
          [⟨nextId (db.songs.map (·.id)), tV, album_id, some duration, fV⟩] }, .ok)
    else
      (db, .notFound)
  | _, _ => (db, .validationRefused)

/-- `add_playlist` (lines 832-856). -/
def add_playlist (db : OrmDB) (user_id : Nat) (name : String) : OrmDB × Report :=
  match validate_input name 100 false with
  | some nV =>
    if db.users.any (fun u => u.id == user_id) then
      ({ db with playlists := db.playlists ++
          [⟨nextId (db.playlists.map (·.id)), nV, user_id⟩] }, .ok)
    else
      (db, .notFound)
  | none => (db, .validationRefused)

/-- `add_song_to_playlist` (lines 975-1015): playlist and song must exist; an
existing pair prints "already exists" and inserts nothing. -/
def add_song_to_playlist (db : OrmDB) (playlist_id song_id : Nat) : OrmDB × Report :=
  if !(db.playlists.any (fun p => p.id == playlist_id)) then
    (db, .notFound)
  else if !(db.songs.any (fun s => s.id == song_id)) then
    (db, .notFound)
  else if db.playlist_songs.any (fun ps => ps.playlist_id == playlist_id && ps.song_id == song_id) then
    (db, .alreadyExists)
  else
    ({ db with playlist_songs := db.playlist_songs ++ [⟨playlist_id, song_id⟩] }, .ok)

/-- `add_update_rating` (lines 1148-1194): user and song must exist; an
existing pair has its rating overwritten, otherwise a row is inserted; the
CHECK constraint `rating BETWEEN 1 AND 5` fires at commit on either path. -/
def add_update_rating (db : OrmDB) (user_id song_id : Nat) (rating : Int) : OrmDB × Report :=
  if !(db.users.any (fun u => u.id == user_id)) then
    (db, .notFound)
  else if !(db.songs.any (fun s => s.id == song_id)) then
    (db, .notFound)
  else if db.song_ratings.any (fun x => x.user_id == user_id && x.song_id == song_id) then
    if 1 ≤ rating ∧ rating ≤ 5 then
      ({ db with song_ratings := db.song_ratings.map (NoOrm.updRating user_id song_id rating) }, .ok)
    else
      (db, .checkViolation)
  else
    if 1 ≤ rating ∧ rating ≤ 5 then
      ({ db with song_ratings := db.song_ratings ++ [⟨user_id, song_id, rating⟩] }, .ok)
    else
      (db, .checkViolation)

/-- `delete_rating` (lines 1244-1272). -/
def delete_rating (db : OrmDB) (user_id song_id : Nat) : OrmDB × Report :=
  if db.song_ratings.any (fun x => x.user_id == user_id && x.song_id == song_id) then
    ({ db with song_ratings :=
        db.song_ratings.filter (fun x => !(x.user_id == user_id && x.song_id == song_id)) }, .ok)
  else
    (db, .notFound)

/-- `delete_user` (lines 276-306): checks existence first, then deletes the
user's playlists, play history and ratings, then the user.  The playlists
delete trips the `playlist_songs.playlist_id` FK when a deleted playlist
still has entries, rolling the whole transaction back; this schema has no
likes, follows or comments tables, so the final delete cannot fail. -/
def delete_user (db : OrmDB) (user_id : Nat) : OrmDB × Report :=
  if !(db.users.any (fun u => u.id == user_id)) then
    (db, .notFound)
  else if (db.playlists.filter (fun p => p.user_id == user_id)).any
      (fun p => db.playlist_songs.any (fun ps => ps.playlist_id == p.id)) then
    (db, .fkViolation)
  else
    ({ db with
      users := db.users.filter (fun u => !(u.id == user_id)),
      playlists := db.playlists.filter (fun p => !(p.user_id == user_id)),
      play_history := db.play_history.filter (fun h => !(h.user_id == user_id)),
      song_ratings := db.song_ratings.filter (fun r => !(r.user_id == user_id)) }, .ok)

/-- `delete_artist` (lines 407-436): existence first, then refusal when any
album references the artist. -/
def delete_artist (db : OrmDB) (artist_id : Nat) : OrmDB × Report :=
  if !(db.artists.any (fun a => a.id == artist_id)) then
    (db, .notFound)
  else if db.albums.any (fun a => a.artist_id == artist_id) then
    (db, .conflict)
  else
    ({ db with artists := db.artists.filter (fun a => !(a.id == artist_id)) }, .ok)

/-- `delete_album` (lines 591-620): existence first, then refusal when any
song references the album. -/
def delete_album (db : OrmDB) (album_id : Nat) : OrmDB × Report :=
  if !(db.albums.any (fun a => a.id == album_id)) then
    (db, .notFound)
  else if db.songs.any (fun s => s.album_id == album_id) then
    (db, .conflict)
  else
    ({ db with albums := db.albums.filter (fun a => !(a.id == album_id)) }, .ok)

/-- `delete_song` (lines 774-804): existence first, then deletes the song's
playlist entries, play history and ratings, then the song; nothing else in
this schema references songs, so the delete cannot fail. -/
def delete_song (db : OrmDB) (song_id : Nat) : OrmDB × Report :=
  if !(db.songs.any (fun s => s.id == song_id)) then
    (db, .notFound)
  else
    ({ db with
      songs := db.songs.filter (fun s => !(s.id == song_id)),
      playlist_songs := db.playlist_songs.filter (fun ps => !(ps.song_id == song_id)),
      play_history := db.play_history.filter (fun h => !(h.song_id == song_id)),
      song_ratings := db.song_ratings.filter (fun r => !(r.song_id == song_id)) }, .ok)

/-- `delete_playlist` (lines 922-950): existence first, then deletes the
playlist's entries, then the playlist. -/
def delete_playlist (db : OrmDB) (playlist_id : Nat) : OrmDB × Report :=
  if !(db.playlists.any (fun p => p.id == playlist_id)) then
    (db, .notFound)
  else
    ({ db with
      playlists := db.playlists.filter (fun p => !(p.id == playlist_id)),
      playlist_songs := db.playlist_songs.filter (fun ps => !(ps.playlist_id == playlist_id)) }, .ok)

end Orm

/-! ### Operation inventories (for the variant-equivalence claim)

Each variant's `main`/`menu` dispatch and provisioned table set, transcribed
from the source. -/

/-- The management flows reachable from a variant's main menu. -/
inductive MenuAction where
  | manageUsers
  | manageArtists
  | manageAlbums
  | manageSongs
  | managePlaylists
  | managePlaylistSongs
  | viewPlayHistory
  | manageSongRatings
  | provisionTables
  | manageSongLikes
  | manageArtistFollows
  | manageSongComments
deriving DecidableEq, Repr

/-- Menu options 1-12 of `db_Assignment_no_orm.py` `main` (lines 1577-1607). -/
def noormMenuActions : List MenuAction :=
  [.manageUsers, .manageArtists, .manageAlbums, .manageSongs, .managePlaylists,
   .managePlaylistSongs, .viewPlayHistory, .manageSongRatings, .provisionTables,
   .manageSongLikes, .manageArtistFollows, .manageSongComments]

/-- Menu options 1-9 of `db_arrignment_orm.py` `main` (lines 1275-1300). -/
def ormMenuActions : List MenuAction :=
  [.manageUsers, .manageArtists, .manageAlbums, .manageSongs, .managePlaylists,
   .managePlaylistSongs, .viewPlayHistory, .manageSongRatings, .provisionTables]

/-- The flows covering the likes, follows and comments entities. -/
def socialActions : List MenuAction :=
  [.manageSongLikes, .manageArtistFollows, .manageSongComments]

/-- Tables created by `create_tables` in the raw-query variant (lines
20-119). -/
def noormTableNames : List String :=
  ["users", "artists", "albums", "songs", "playlists", "playlist_songs",
   "play_history", "song_ratings", "song_likes", "artist_follows", "song_comments"]

/-- Tables declared as mapped classes in the object-relational variant
(lines 25-115). -/
def ormTableNames : List String :=
  ["users", "artists", "albums", "songs", "playlists", "playlist_songs",
   "play_history", "song_ratings"]

/-- Tables backing the likes, follows and comments entities. -/
def socialTableNames : List String :=
  ["song_likes", "artist_follows", "song_comments"]

/-! ### Helper predicates -/

/-- No key pair occurs twice in the list (the PRIMARY KEY of a composite-key
table), for a key given by two `Nat` projections. -/
def keysDistinct {α : Type} (k₁ k₂ : α → Nat) : List α → Bool
  | [] => true
  | a :: rest => (rest.all fun b => !(k₁ b == k₁ a && k₂ b == k₂ a)) && keysDistinct k₁ k₂ rest

/-- Every stored rating lies in the CHECK-constraint range `[1, 5]`. -/
def ratingsInRange (l : List RatingRow) : Bool :=
  l.all fun r => decide (1 ≤ r.rating) && decide (r.rating ≤ 5)

/-- After a user delete in the raw variant: the user is gone and no dependent
table still references them; entries under the user's (now deleted) playlists
are gone as well. -/
def noUserOrphans (db db' : DB) (uid : Nat) : Bool :=
  db'.users.all (fun u => !(u.id == uid)) &&
  db'.playlists.all (fun p => !(p.user_id == uid)) &&
  db'.play_history.all (fun h => !(h.user_id == uid)) &&
  db'.song_ratings.all (fun r => !(r.user_id == uid)) &&
  db'.song_likes.all (fun l => !(l.user_id == uid)) &&
  db'.artist_follows.all (fun f => !(f.user_id == uid)) &&
  db'.song_comments.all (fun c => !(c.user_id == uid)) &&
  db.playlists.all (fun p =>
    !(p.user_id == uid) || db'.playlist_songs.all (fun ps => !(ps.playlist_id == p.id)))

/-- After a song delete in the raw variant: the song is gone and no dependent
table still references it. -/
def noSongOrphans (db' : DB) (sid : Nat) : Bool :=
  db'.songs.all (fun s => !(s.id == sid)) &&
  db'.playlist_songs.all (fun ps => !(ps.song_id == sid)) &&
  db'.play_history.all (fun h => !(h.song_id == sid)) &&
  db'.song_ratings.all (fun r => !(r.song_id == sid)) &&
  db'.song_likes.all (fun l => !(l.song_id == sid)) &&
  db'.song_comments.all (fun c => !(c.song_id == sid))

/-- After a playlist delete in the raw variant: the playlist and its entries
are gone. -/
def noPlaylistOrphans (db' : DB) (pid : Nat) : Bool :=
  db'.playlists.all (fun p => !(p.id == pid)) &&
  db'.playlist_songs.all (fun ps => !(ps.playlist_id == pid))

/-- After a user delete in the mapped variant (eight-table schema). -/
def ormNoUserOrphans (db db' : OrmDB) (uid : Nat) : Bool :=
  db'.users.all (fun u => !(u.id == uid)) &&
  db'.playlists.all (fun p => !(p.user_id == uid)) &&
  db'.play_history.all (fun h => !(h.user_id == uid)) &&
  db'.song_ratings.all (fun r => !(r.user_id == uid)) &&
  db.playlists.all (fun p =>
    !(p.user_id == uid) || db'.playlist_songs.all (fun ps => !(ps.playlist_id == p.id)))

/-- After a song delete in the mapped variant. -/
def ormNoSongOrphans (db' : OrmDB) (sid : Nat) : Bool :=
  db'.songs.all (fun s => !(s.id == sid)) &&
  db'.playlist_songs.all (fun ps => !(ps.song_id == sid)) &&
  db'.play_history.all (fun h => !(h.song_id == sid)) &&
  db'.song_ratings.all (fun r => !(r.song_id == sid))

/-- After a playlist delete in the mapped variant. -/
def ormNoPlaylistOrphans (db' : OrmDB) (pid : Nat) : Bool :=
  db'.playlists.all (fun p => !(p.id == pid)) &&
  db'.playlist_songs.all (fun ps => !(ps.playlist_id == pid))

/-! ### Generic list lemmas -/

theorem all_not_of_filter {α : Type} (p : α → Bool) (l : List α) :
    (l.filter (fun x => !(p x))).all (fun x => !(p x)) = true := by
  rw [List.all_eq_true]
  intro x hx
  exact (List.mem_filter.mp hx).2

theorem all_not_of_any_eq_false {α : Type} (p : α → Bool) (l : List α)
    (h : l.any p = false) : l.all (fun x => !(p x)) = true := by
  rw [List.all_eq_true]
  intro x hx
  rw [List.any_eq_false] at h
  simpa using h x hx

theorem countP_eq_zero_of_any_eq_false {α : Type} (p : α → Bool) (l : List α)
    (h : l.any p = false) : l.countP p = 0 := by
  rw [List.countP_eq_zero]
  intro x hx
  rw [List.any_eq_false] at h
  simpa using h x hx

theorem one_le_countP_of_any {α : Type} (p : α → Bool) (l : List α)
    (h : l.any p = true) : 1 ≤ l.countP p := by
  rw [List.any_eq_true] at h
  obtain ⟨x, hx, hp⟩ := h
  exact List.countP_pos_iff.mpr ⟨x, hx, hp⟩

theorem countP_le_one_of_keysDistinct {α : Type} (k₁ k₂ : α → Nat) (l : List α)
    (u s : Nat) (h : keysDistinct k₁ k₂ l = true) :
    (l.countP fun x => k₁ x == u && k₂ x == s) ≤ 1 := by
  induction l with
  | nil => simp
  | cons a rest ih =>
    rw [keysDistinct, Bool.and_eq_true] at h
    obtain ⟨hall, hrest⟩ := h
    rw [List.countP_cons]
    by_cases hk : (k₁ a == u && k₂ a == s) = true
    · have h0 : (rest.countP fun x => k₁ x == u && k₂ x == s) = 0 := by
        rw [List.countP_eq_zero]
        intro x hx
        have hx' := List.all_eq_true.mp hall x hx
        simp only [Bool.and_eq_true, beq_iff_eq] at hk ⊢
        rw [Bool.not_eq_true', Bool.and_eq_false_iff] at hx'
        rintro ⟨e1, e2⟩
        rcases hx' with h1 | h2
        · rw [e1, hk.1] at h1
          simp at h1
        · rw [e2, hk.2] at h2
          simp at h2
      simp [h0, hk]
    · have hk2 : (k₁ a == u && k₂ a == s) = false := by
        revert hk
        cases (k₁ a == u && k₂ a == s) <;> simp
      simp only [hk2, Bool.false_eq_true, if_false]
      have := ih hrest
      omega

theorem NoOrm.updRating_user_id (u s : Nat) (r : Int) (row : RatingRow) :
    (NoOrm.updRating u s r row).user_id = row.user_id := by
  unfold NoOrm.updRating
  split <;> rfl

theorem NoOrm.updRating_song_id (u s : Nat) (r : Int) (row : RatingRow) :
    (NoOrm.updRating u s r row).song_id = row.song_id := by
  unfold NoOrm.updRating
  split <;> rfl

theorem countP_map_updRating (u s u' s' : Nat) (r : Int) (l : List RatingRow) :
    ((l.map (NoOrm.updRating u s r)).countP fun x => x.user_id == u' && x.song_id == s')
      = l.countP fun x => x.user_id == u' && x.song_id == s' := by
  induction l with
  | nil => rfl
  | cons a rest ih =>
    rw [List.map_cons, List.countP_cons, List.countP_cons, ih,
      NoOrm.updRating_user_id, NoOrm.updRating_song_id]

theorem any_map_updRating (u s u' s' : Nat) (r : Int) (l : List RatingRow) :
    ((l.map (NoOrm.updRating u s r)).any fun x => x.user_id == u' && x.song_id == s')
      = l.any fun x => x.user_id == u' && x.song_id == s' := by
  induction l with
  | nil => rfl
  | cons a rest ih =>
    rw [List.map_cons, List.any_cons, List.any_cons, ih,
      NoOrm.updRating_user_id, NoOrm.updRating_song_id]

theorem rating_of_mem_map_updRating (u s : Nat) (r : Int) (l : List RatingRow)
    (row : RatingRow) (h : row ∈ l.map (NoOrm.updRating u s r))
    (h1 : row.user_id = u) (h2 : row.song_id = s) : row.rating = r := by
  obtain ⟨orig, -, heq⟩ := List.mem_map.mp h
  subst heq
  rw [NoOrm.updRating_user_id] at h1
  rw [NoOrm.updRating_song_id] at h2
  unfold NoOrm.updRating
  rw [if_pos (by simp [h1, h2])]

theorem ratingsInRange_filter (p : RatingRow → Bool) (l : List RatingRow)
    (h : ratingsInRange l = true) : ratingsInRange (l.filter p) = true := by
  rw [ratingsInRange, List.all_eq_true]
  intro x hx
  exact List.all_eq_true.mp h x (List.mem_filter.mp hx).1

theorem ratingsInRange_append (l : List RatingRow) (x : RatingRow)
    (h : ratingsInRange l = true) (h1 : 1 ≤ x.rating) (h2 : x.rating ≤ 5) :
    ratingsInRange (l ++ [x]) = true := by
  rw [ratingsInRange, List.all_eq_true]
  intro y hy
  rcases List.mem_append.mp hy with hl | hr
  · exact List.all_eq_true.mp h y hl
  · simp only [List.mem_singleton] at hr
    subst hr
    simp [h1, h2]

theorem ratingsInRange_map_updRating (u s : Nat) (r : Int) (l : List RatingRow)
    (h : ratingsInRange l = true) (h1 : 1 ≤ r) (h2 : r ≤ 5) :
    ratingsInRange (l.map (NoOrm.updRating u s r)) = true := by
  rw [ratingsInRange, List.all_eq_true]
  intro y hy
  obtain ⟨orig, horig, heq⟩ := List.mem_map.mp hy
  subst heq
  unfold NoOrm.updRating
  split
  · simp [h1, h2]
  · exact List.all_eq_true.mp h orig horig

theorem hasSubCh_nil_pat (l : List Char) : hasSubCh [] l = true := by
  cases l with
  | nil => rfl
  | cons a t => rw [hasSubCh, hasPrefixCh, Bool.true_or]

theorem hasPrefixCh_append (pat l t : List Char) (h : hasPrefixCh pat l = true) :
    hasPrefixCh pat (l ++ t) = true := by
  induction pat generalizing l with
  | nil => rfl
  | cons p ps ih =>
    cases l with
    | nil => exact absurd h (by simp [hasPrefixCh])
    | cons a as =>
      rw [hasPrefixCh, Bool.and_eq_true] at h
      rw [List.cons_append, hasPrefixCh, Bool.and_eq_true]
      exact ⟨h.1, ih as h.2⟩

theorem hasSubCh_append_right (pat l t : List Char) (h : hasSubCh pat l = true) :
    hasSubCh pat (l ++ t) = true := by
  induction l with
  | nil =>
    rw [hasSubCh] at h
    cases pat with
    | nil => exact hasSubCh_nil_pat _
    | cons p ps => exact absurd h (by simp [hasPrefixCh])
  | cons a as ih =>
    rw [hasSubCh, Bool.or_eq_true] at h
    rw [List.cons_append, hasSubCh, Bool.or_eq_true]
    rcases h with h | h
    · exact Or.inl (by simpa using hasPrefixCh_append pat (a :: as) t h)
    · exact Or.inr (ih h)

theorem hasSubCh_cons (pat l : List Char) (a : Char) (h : hasSubCh pat l = true) :
    hasSubCh pat (a :: l) = true := by
  rw [hasSubCh, Bool.or_eq_true]
  exact Or.inr h

theorem hasSubCh_append_left (pat pre l : List Char) (h : hasSubCh pat l = true) :
    hasSubCh pat (pre ++ l) = true := by
  induction pre with
  | nil => exact h
  | cons a as ih => exact hasSubCh_cons pat (as ++ l) a ih

theorem exists_strip_decomposition (l : List Char) :
    ∃ pre post, l = pre ++ stripList l ++ post := by
  obtain ⟨pre, hpre⟩ := List.dropWhile_suffix (l := l) pyWs
  obtain ⟨t, ht⟩ := List.dropWhile_suffix (l := (l.dropWhile pyWs).reverse) pyWs
  refine ⟨pre, t.reverse, ?_⟩
  have hm : l.dropWhile pyWs
      = ((l.dropWhile pyWs).reverse.dropWhile pyWs).reverse ++ t.reverse := by
    have h2 := congrArg List.reverse ht
    rw [List.reverse_append, List.reverse_reverse] at h2
    exact h2.symm
  rw [stripList, List.append_assoc, ← hm, hpre]

theorem hasSubCh_stripList (pat l : List Char) (h : hasSubCh pat (stripList l) = true) :
    hasSubCh pat l = true := by
  obtain ⟨pre, post, hdec⟩ := exists_strip_decomposition l
  rw [hdec, List.append_assoc]
  exact hasSubCh_append_left pat pre _ (hasSubCh_append_right pat _ post h)

theorem blockHit_pyStrip (s : String) (h : blockHit s = false) :
    blockHit (pyStrip s) = false := by
  rw [blockHit, List.any_eq_false] at h ⊢
  intro p hp
  intro hsub
  refine h p hp ?_
  have : (pyStrip s).toList = stripList s.toList := rfl
  rw [this] at hsub
  exact hasSubCh_stripList p s.toList hsub

/-! ### Concrete states used by witnesses and counterexamples -/

/-- One user, one artist/album/song chain, and a like by the user. -/
def dbWithLike : DB :=
  { users := [⟨1, "u", "e", "p"⟩], artists := [⟨1, "a", none⟩],
    albums := [⟨1, "x", 1, none⟩], songs := [⟨1, "s", 1, some 10, "f"⟩],
    song_likes := [⟨1, 1⟩] }

/-- One user with one empty playlist, a play-history row and a rating — the
dependents the user-delete cascade actually clears. -/
def dbCascadable : DB :=
  { users := [⟨1, "u", "e", "p"⟩], artists := [⟨1, "a", none⟩],
    albums := [⟨1, "x", 1, none⟩], songs := [⟨1, "s", 1, some 10, "f"⟩],
    playlists := [⟨1, "pl", 1⟩], play_history := [⟨1, 1, 1⟩],
    song_ratings := [⟨1, 1, 3⟩] }

/-- One artist with one album under it. -/
def dbArtistWithAlbum : DB :=
  { artists := [⟨1, "a", none⟩], albums := [⟨1, "x", 1, none⟩] }

/-- The mapped-variant state with one artist and one album under it. -/
def ormArtistWithAlbum : OrmDB :=
  { artists := [⟨1, "a", none⟩], albums := [⟨1, "x", 1, none⟩] }

/-- One user named bob with email b@x. -/
def dbOneUser : DB := { users := [⟨1, "bob", "b@x", "pw"⟩] }

/-- The mapped-variant state with the same single user. -/
def ormOneUser : OrmDB := { users := [⟨1, "bob", "b@x", "pw"⟩] }

/-- A user/playlist/song state with no playlist entries yet. -/
def dbPlaylistReady : DB :=
  { users := [⟨1, "u", "e", "p"⟩], artists := [⟨1, "a", none⟩],
    albums := [⟨1, "x", 1, none⟩], songs := [⟨1, "s", 1, some 10, "f"⟩],
    playlists := [⟨1, "pl", 1⟩] }

/-- The mapped-variant state of `dbPlaylistReady`. -/
def ormPlaylistReady : OrmDB :=
  { users := [⟨1, "u", "e", "p"⟩], artists := [⟨1, "a", none⟩],
    albums := [⟨1, "x", 1, none⟩], songs := [⟨1, "s", 1, some 10, "f"⟩],
    playlists := [⟨1, "pl", 1⟩] }

/-! ### Claim C3 -/

/-- C3: for an existing user and song, rating twice with `r1` then `r2`
(both in range, `r1 ≠ r2`) leaves exactly one rating row for the pair, and
that row holds `r2` — the upsert overwrites on duplicate, last write wins.
Both variants. -/
theorem c3_rating_last_write_wins :
    (∀ (db : DB) (u s : Nat) (r1 r2 : Int),
      db.users.any (fun x => x.id == u) = true →
      db.songs.any (fun x => x.id == s) = true →
      keysDistinct (fun x : RatingRow => x.user_id) (fun x => x.song_id)
        db.song_ratings = true →
      1 ≤ r1 → r1 ≤ 5 → 1 ≤ r2 → r2 ≤ 5 → r1 ≠ r2 →
      ((NoOrm.add_update_rating (NoOrm.add_update_rating db u s r1).1 u s r2).1.song_ratings.countP
          (fun x => x.user_id == u && x.song_id == s) = 1
        ∧ ∀ row ∈ (NoOrm.add_update_rating
              (NoOrm.add_update_rating db u s r1).1 u s r2).1.song_ratings,
            row.user_id = u → row.song_id = s → row.rating = r2))
    ∧ (∀ (db : OrmDB) (u s : Nat) (r1 r2 : Int),
      db.users.any (fun x => x.id == u) = true →
      db.songs.any (fun x => x.id == s) = true →
      keysDistinct (fun x : RatingRow => x.user_id) (fun x => x.song_id)
        db.song_ratings = true →
      1 ≤ r1 → r1 ≤ 5 → 1 ≤ r2 → r2 ≤ 5 → r1 ≠ r2 →
      ((Orm.add_update_rating (Orm.add_update_rating db u s r1).1 u s r2).1.song_ratings.countP
          (fun x => x.user_id == u && x.song_id == s) = 1
        ∧ ∀ row ∈ (Orm.add_update_rating
              (Orm.add_update_rating db u s r1).1 u s r2).1.song_ratings,
            row.user_id = u → row.song_id = s → row.rating = r2)) := by
  constructor
  · intro db u s r1 r2 hu hs hd h11 h12 h21 h22 hne
    by_cases hp : (db.song_ratings.any fun x => x.user_id == u && x.song_id == s) = true
    · have e1 : NoOrm.add_update_rating db u s r1
          = ({ db with song_ratings := db.song_ratings.map (NoOrm.updRating u s r1) },
            Report.ok) := by
        rw [NoOrm.add_update_rating, if_pos hp, if_pos ⟨h11, h12⟩]
      have h1 : (NoOrm.add_update_rating db u s r1).1
          = { db with song_ratings := db.song_ratings.map (NoOrm.updRating u s r1) } := by
        rw [e1]
      rw [h1]
      have hp2 : (({ db with song_ratings := db.song_ratings.map (NoOrm.updRating u s r1) }
            : DB).song_ratings.any fun x => x.user_id == u && x.song_id == s) = true := by
        show ((db.song_ratings.map (NoOrm.updRating u s r1)).any
            fun x => x.user_id == u && x.song_id == s) = true
        rw [any_map_updRating]
        exact hp
      have e2 : NoOrm.add_update_rating
            { db with song_ratings := db.song_ratings.map (NoOrm.updRating u s r1) } u s r2
          = ({ db with song_ratings :=
              (db.song_ratings.map (NoOrm.updRating u s r1)).map (NoOrm.updRating u s r2) },
            Report.ok) := by
        rw [NoOrm.add_update_rating, if_pos hp2, if_pos ⟨h21, h22⟩]
      have h2 : (NoOrm.add_update_rating
            { db with song_ratings := db.song_ratings.map (NoOrm.updRating u s r1) } u s r2).1
          = { db with song_ratings :=
              (db.song_ratings.map (NoOrm.updRating u s r1)).map (NoOrm.updRating u s r2) } := by
        rw [e2]
      rw [h2]
      constructor
      · show (((db.song_ratings.map (NoOrm.updRating u s r1)).map
            (NoOrm.updRating u s r2)).countP fun x => x.user_id == u && x.song_id == s) = 1
        rw [countP_map_updRating, countP_map_updRating]
        exact Nat.le_antisymm (countP_le_one_of_keysDistinct _ _ _ u s hd)
          (one_le_countP_of_any _ _ hp)
      · intro row hrow hru hrs
        exact rating_of_mem_map_updRating u s r2 _ row hrow hru hrs
    · have hpf : (db.song_ratings.any fun x => x.user_id == u && x.song_id == s) = false := by
        revert hp
        cases (db.song_ratings.any fun x => x.user_id == u && x.song_id == s) <;> simp
      have hfk : ((db.users.any fun x => x.id == u) && (db.songs.any fun x => x.id == s))
          = true := by
        rw [hu, hs]
        rfl
      have e1 : NoOrm.add_update_rating db u s r1
          = ({ db with song_ratings := db.song_ratings ++ ([⟨u, s, r1⟩] : List RatingRow) }, Report.ok) := by
        rw [NoOrm.add_update_rating, if_neg hp, if_pos hfk, if_pos ⟨h11, h12⟩]
      have h1 : (NoOrm.add_update_rating db u s r1).1
          = { db with song_ratings := db.song_ratings ++ ([⟨u, s, r1⟩] : List RatingRow) } := by rw [e1]
      rw [h1]
      have hp2 : (({ db with song_ratings := db.song_ratings ++ ([⟨u, s, r1⟩] : List RatingRow) }
            : DB).song_ratings.any fun x => x.user_id == u && x.song_id == s) = true := by
        simp
      have e2 : NoOrm.add_update_rating
            { db with song_ratings := db.song_ratings ++ ([⟨u, s, r1⟩] : List RatingRow) } u s r2
          = ({ db with song_ratings :=
              (db.song_ratings ++ ([⟨u, s, r1⟩] : List RatingRow)).map (NoOrm.updRating u s r2) },
            Report.ok) := by
        rw [NoOrm.add_update_rating, if_pos hp2, if_pos ⟨h21, h22⟩]
      have h2 : (NoOrm.add_update_rating
            { db with song_ratings := db.song_ratings ++ ([⟨u, s, r1⟩] : List RatingRow) } u s r2).1
          = { db with song_ratings :=
              (db.song_ratings ++ ([⟨u, s, r1⟩] : List RatingRow)).map (NoOrm.updRating u s r2) } := by
        rw [e2]
      rw [h2]
      constructor
      · show (((db.song_ratings ++ ([⟨u, s, r1⟩] : List RatingRow)).map
            (NoOrm.updRating u s r2)).countP fun x => x.user_id == u && x.song_id == s) = 1
        rw [countP_map_updRating, List.countP_append,
          countP_eq_zero_of_any_eq_false _ _ hpf]
        simp [List.countP_cons]
      · intro row hrow hru hrs
        exact rating_of_mem_map_updRating u s r2 _ row hrow hru hrs
  · intro db u s r1 r2 hu hs hd h11 h12 h21 h22 hne
    by_cases hp : (db.song_ratings.any fun x => x.user_id == u && x.song_id == s) = true
    · have e1 : Orm.add_update_rating db u s r1
          = ({ db with song_ratings := db.song_ratings.map (NoOrm.updRating u s r1) },
            Report.ok) := by
        rw [Orm.add_update_rating, if_neg (by simp [hu]), if_neg (by simp [hs]),
          if_pos hp, if_pos ⟨h11, h12⟩]
      have h1 : (Orm.add_update_rating db u s r1).1
          = { db with song_ratings := db.song_ratings.map (NoOrm.updRating u s r1) } := by
        rw [e1]
      rw [h1]
      have hp2 : (({ db with song_ratings := db.song_ratings.map (NoOrm.updRating u s r1) }
            : OrmDB).song_ratings.any fun x => x.user_id == u && x.song_id == s) = true := by
        show ((db.song_ratings.map (NoOrm.updRating u s r1)).any
            fun x => x.user_id == u && x.song_id == s) = true
        rw [any_map_updRating]
        exact hp
      have e2 : Orm.add_update_rating
            { db with song_ratings := db.song_ratings.map (NoOrm.updRating u s r1) } u s r2
          = ({ db with song_ratings :=
              (db.song_ratings.map (NoOrm.updRating u s r1)).map (NoOrm.updRating u s r2) },
            Report.ok) := by
        rw [Orm.add_update_rating, if_neg (by simp [hu]), if_neg (by simp [hs]),
          if_pos hp2, if_pos ⟨h21, h22⟩]
      have h2 : (Orm.add_update_rating
            { db with song_ratings := db.song_ratings.map (NoOrm.updRating u s r1) } u s r2).1
          = { db with song_ratings :=
              (db.song_ratings.map (NoOrm.updRating u s r1)).map (NoOrm.updRating u s r2) } := by
        rw [e2]
      rw [h2]
      constructor
      · show (((db.song_ratings.map (NoOrm.updRating u s r1)).map
            (NoOrm.updRating u s r2)).countP fun x => x.user_id == u && x.song_id == s) = 1
        rw [countP_map_updRating, countP_map_updRating]
        exact Nat.le_antisymm (countP_le_one_of_keysDistinct _ _ _ u s hd)
          (one_le_countP_of_any _ _ hp)
      · intro row hrow hru hrs
        exact rating_of_mem_map_updRating u s r2 _ row hrow hru hrs
    · have hpf : (db.song_ratings.any fun x => x.user_id == u && x.song_id == s) = false := by
        revert hp
        cases (db.song_ratings.any fun x => x.user_id == u && x.song_id == s) <;> simp
      have e1 : Orm.add_update_rating db u s r1
          = ({ db with song_ratings := db.song_ratings ++ ([⟨u, s, r1⟩] : List RatingRow) }, Report.ok) := by
        rw [Orm.add_update_rating, if_neg (by simp [hu]), if_neg (by simp [hs]),
          if_neg hp, if_pos ⟨h11, h12⟩]
      have h1 : (Orm.add_update_rating db u s r1).1
          = { db with song_ratings := db.song_ratings ++ ([⟨u, s, r1⟩] : List RatingRow) } := by rw [e1]
      rw [h1]
      have hp2 : (({ db with song_ratings := db.song_ratings ++ ([⟨u, s, r1⟩] : List RatingRow) }
            : OrmDB).song_ratings.any fun x => x.user_id == u && x.song_id == s) = true := by
        simp
      have e2 : Orm.add_update_rating
            { db with song_ratings := db.song_ratings ++ ([⟨u, s, r1⟩] : List RatingRow) } u s r2
          = ({ db with song_ratings :=
              (db.song_ratings ++ ([⟨u, s, r1⟩] : List RatingRow)).map (NoOrm.updRating u s r2) },
            Report.ok) := by
        rw [Orm.add_update_rating, if_neg (by simp [hu]), if_neg (by simp [hs]),
          if_pos hp2, if_pos ⟨h21, h22⟩]
      have h2 : (Orm.add_update_rating
            { db with song_ratings := db.song_ratings ++ ([⟨u, s, r1⟩] : List RatingRow) } u s r2).1
          = { db with song_ratings :=
              (db.song_ratings ++ ([⟨u, s, r1⟩] : List RatingRow)).map (NoOrm.updRating u s r2) } := by
        rw [e2]
      rw [h2]
      constructor
      · show (((db.song_ratings ++ ([⟨u, s, r1⟩] : List RatingRow)).map
            (NoOrm.updRating u s r2)).countP fun x => x.user_id == u && x.song_id == s) = 1
        rw [countP_map_updRating, List.countP_append,
          countP_eq_zero_of_any_eq_false _ _ hpf]
        simp [List.countP_cons]
      · intro row hrow hru hrs
        exact rating_of_mem_map_updRating u s r2 _ row hrow hru hrs

/-- Witness for C3: user 1 rates song 1 with 2 then 5; one row remains and it
holds 5, in both variants. -/
theorem c3_witness :
    ((NoOrm.add_update_rating (NoOrm.add_update_rating dbPlaylistReady 1 1 2).1 1 1 5).1.song_ratings.countP
        (fun x => x.user_id == 1 && x.song_id == 1) = 1
      ∧ ∀ row ∈ (NoOrm.add_update_rating
            (NoOrm.add_update_rating dbPlaylistReady 1 1 2).1 1 1 5).1.song_ratings,
          row.user_id = 1 → row.song_id = 1 → row.rating = 5)
    ∧ ((Orm.add_update_rating (Orm.add_update_rating ormPlaylistReady 1 1 2).1 1 1 5).1.song_ratings.countP
        (fun x => x.user_id == 1 && x.song_id == 1) = 1
      ∧ ∀ row ∈ (Orm.add_update_rating
            (Orm.add_update_rating ormPlaylistReady 1 1 2).1 1 1 5).1.song_ratings,
          row.user_id = 1 → row.song_id = 1 → row.rating = 5) :=
  ⟨c3_rating_last_write_wins.1 dbPlaylistReady 1 1 2 5 (by decide) (by decide) (by decide)
      (by decide) (by decide) (by decide) (by decide) (by decide),
   c3_rating_last_write_wins.2 ormPlaylistReady 1 1 2 5 (by decide) (by decide) (by decide)
      (by decide) (by decide) (by decide) (by decide) (by decide)⟩

/-! ### Claim C5 -/

/-- C5: creating a user whose username or email equals an existing user's
fails with the `ConflictError` class (the raw variant's UNIQUE-constraint
violation, the mapped variant's explicit duplicate check) and inserts no row:
the whole state, in particular the user table, is returned unchanged. -/
theorem c5_duplicate_user_rejected :
    (∀ (db : DB) (username email password : String),
      db.users.any (fun u => u.username == username || u.email == email) = true →
      NoOrm.add_user db username email password = (db, Report.conflict))
    ∧ (∀ (db : OrmDB) (username email password : String),
      validate_input username 100 false = some username →
      validate_input email 100 false = some email →
      validate_input password 100 false = some password →
      db.users.any (fun u => u.username == username || u.email == email) = true →
      Orm.add_user db username email password = (db, Report.conflict)) := by
  constructor
  · intro db username email password hdup
    rw [NoOrm.add_user, if_pos hdup]
  · intro db username email password hv1 hv2 hv3 hdup
    rw [Orm.add_user, hv1, hv2, hv3]
    simp [hdup]

/-- Witness for C5 at a concrete state: adding a second "bob" is refused and
changes nothing, in both variants. -/
theorem c5_witness :
    NoOrm.add_user dbOneUser "bob" "c@y" "pw2" = (dbOneUser, Report.conflict)
    ∧ Orm.add_user ormOneUser "bob" "c@y" "pw2" = (ormOneUser, Report.conflict) :=
  ⟨c5_duplicate_user_rejected.1 dbOneUser "bob" "c@y" "pw2" (by decide),
   c5_duplicate_user_rejected.2 ormOneUser "bob" "c@y" "pw2"
     (by decide) (by decide) (by decide) (by decide)⟩

/-! ### Claim C6 -/

/-- C6 counterexample: the raw-query variant offers likes, follows and
comments flows (menu options 10-12) and creates their tables, while the
object-relational variant offers no such flow and declares no such table, so
the two variants do not perform the same set of operations. -/
theorem c6_counterexample :
    (MenuAction.manageSongLikes ∈ noormMenuActions
      ∧ MenuAction.manageSongLikes ∉ ormMenuActions)
    ∧ (MenuAction.manageArtistFollows ∈ noormMenuActions
      ∧ MenuAction.manageArtistFollows ∉ ormMenuActions)
    ∧ (MenuAction.manageSongComments ∈ noormMenuActions
      ∧ MenuAction.manageSongComments ∉ ormMenuActions)
    ∧ ("song_likes" ∈ noormTableNames ∧ "song_likes" ∉ ormTableNames) := by
  decide

/-- C6 (amended): the two variants offer the same management flows and
provision the same tables for the eight shared entity groups; the likes,
follows and comments flows and tables exist only in the raw-query variant. -/
theorem c6_shared_inventory :
    ormMenuActions = noormMenuActions.filter (fun a => !(socialActions.contains a))
    ∧ ormTableNames = noormTableNames.filter (fun t => !(socialTableNames.contains t)) := by
  decide

/-! ### Claim C7 -/

/-- C7 counterexample: in the raw-query variant an artist created with the
bio prompt left at its empty default stores the empty string, not the absent
marker `NULL`. -/
theorem c7_counterexample :
    ((NoOrm.add_artist {} "A" "").1.artists.map (fun a => a.bio)) = [some ""] := by
  decide

/-- C7 (amended): an omitted release date is stored as `NULL` in both
variants, and the mapped variant stores an omitted bio as `NULL`; but the
raw variant stores an omitted bio as the empty string, and both variants
store the duration that was entered (defaulting to 0) as a value, never as
`NULL`. -/
theorem c7_optional_fields :
    (∀ (db : DB) (name bio : String),
      (NoOrm.add_artist db name bio).1.artists.map (fun a => a.bio)
        = db.artists.map (fun a => a.bio) ++ [some bio])
    ∧ (∀ (db : DB) (aid : Nat) (title : String),
      db.artists.any (fun a => a.id == aid) = true →
      (NoOrm.add_album db aid title "").1.albums.map (fun a => a.release_date)
        = db.albums.map (fun a => a.release_date) ++ [none])
    ∧ (∀ (db : DB) (alid : Nat) (title : String) (d : Int) (fp : String),
      db.albums.any (fun a => a.id == alid) = true →
      (NoOrm.add_song db alid title d fp).1.songs.map (fun s => s.duration)
        = db.songs.map (fun s => s.duration) ++ [some d])
    ∧ (∀ (db : OrmDB) (name : String),
      validate_input name 100 false = some name →
      (Orm.add_artist db name "").1.artists.map (fun a => a.bio)
        = db.artists.map (fun a => a.bio) ++ [none])
    ∧ (∀ (db : OrmDB) (aid : Nat) (title : String),
      validate_input title 100 false = some title →
      db.artists.any (fun a => a.id == aid) = true →
      (Orm.add_album db aid title "").1.albums.map (fun a => a.release_date)
        = db.albums.map (fun a => a.release_date) ++ [none])
    ∧ (∀ (db : OrmDB) (alid : Nat) (title : String) (d : Int) (fp : String),
      validate_input title 100 false = some title →
      validate_input fp 100 false = some fp →
      db.albums.any (fun a => a.id == alid) = true →
      (Orm.add_song db alid title d fp).1.songs.map (fun s => s.duration)
        = db.songs.map (fun s => s.duration) ++ [some d]) := by
  refine ⟨?_, ?_, ?_, ?_, ?_, ?_⟩
  · intro db name bio
    simp [NoOrm.add_artist]
  · intro db aid title hart
    simp [NoOrm.add_album, hart]
  · intro db alid title d fp halb
    simp [NoOrm.add_song, halb]
  · intro db name hv
    simp [Orm.add_artist, hv, show validate_input "" 100 true = some "" from by decide]
  · intro db aid title hv hart
    simp [Orm.add_album, hv, hart, show validate_input "" 100 true = some "" from by decide]
  · intro db alid title d fp hv1 hv2 halb
    simp [Orm.add_song, hv1, hv2, halb]

/-- Witness for C7 at concrete states: blank release dates store `NULL`, the
mapped variant's blank bio stores `NULL`, and the default duration 0 is
stored as the value 0. -/
theorem c7_witness :
    (NoOrm.add_album dbArtistWithAlbum 1 "Y" "").1.albums.map (fun a => a.release_date)
        = dbArtistWithAlbum.albums.map (fun a => a.release_date) ++ [none]
    ∧ (Orm.add_artist ormOneUser "Z" "").1.artists.map (fun a => a.bio)
        = ormOneUser.artists.map (fun a => a.bio) ++ [none]
    ∧ (Orm.add_album ormArtistWithAlbum 1 "Y" "").1.albums.map (fun a => a.release_date)
        = ormArtistWithAlbum.albums.map (fun a => a.release_date) ++ [none]
    ∧ (NoOrm.add_song dbArtistWithAlbum 1 "S" 0 "fp").1.songs.map (fun s => s.duration)
        = dbArtistWithAlbum.songs.map (fun s => s.duration) ++ [some 0]
    ∧ (Orm.add_song ormArtistWithAlbum 1 "S" 0 "fp").1.songs.map (fun s => s.duration)
        = ormArtistWithAlbum.songs.map (fun s => s.duration) ++ [some 0] :=
  ⟨c7_optional_fields.2.1 dbArtistWithAlbum 1 "Y" (by decide),
   c7_optional_fields.2.2.2.1 ormOneUser "Z" (by decide),
   c7_optional_fields.2.2.2.2.1 ormArtistWithAlbum 1 "Y" (by decide) (by decide),
   c7_optional_fields.2.2.1 dbArtistWithAlbum 1 "S" 0 "fp" (by decide),
   c7_optional_fields.2.2.2.2.2 ormArtistWithAlbum 1 "S" 0 "fp"
     (by decide) (by decide) (by decide)⟩

/-! ### Claim C2 -/

/-- C2: deleting an artist is refused with the `ConflictError` class exactly
when some album references it, and deleting an album exactly when some song
references it; a refused delete returns the state unchanged, so the entity
and all of its dependents are still present.  In the mapped variant, which
checks existence before the dependent check, the same holds for every
existing artist and album. -/
theorem c2_integrity_denial (db : DB) (odb : OrmDB) (aid alid : Nat) :
    ((NoOrm.delete_artist db aid).2 = Report.conflict
      ↔ db.albums.any (fun al => al.artist_id == aid) = true)
    ∧ ((NoOrm.delete_artist db aid).2 = Report.conflict → (NoOrm.delete_artist db aid).1 = db)
    ∧ ((NoOrm.delete_album db alid).2 = Report.conflict
      ↔ db.songs.any (fun s => s.album_id == alid) = true)
    ∧ ((NoOrm.delete_album db alid).2 = Report.conflict → (NoOrm.delete_album db alid).1 = db)
    ∧ (odb.artists.any (fun a => a.id == aid) = true →
      (((Orm.delete_artist odb aid).2 = Report.conflict
        ↔ odb.albums.any (fun al => al.artist_id == aid) = true)
      ∧ ((Orm.delete_artist odb aid).2 = Report.conflict → (Orm.delete_artist odb aid).1 = odb)))
    ∧ (odb.albums.any (fun a => a.id == alid) = true →
      (((Orm.delete_album odb alid).2 = Report.conflict
        ↔ odb.songs.any (fun s => s.album_id == alid) = true)
      ∧ ((Orm.delete_album odb alid).2 = Report.conflict →
          (Orm.delete_album odb alid).1 = odb))) := by
  refine ⟨?_, ?_, ?_, ?_, ?_, ?_⟩
  · by_cases h : db.albums.any (fun al => al.artist_id == aid) = true
    · rw [NoOrm.delete_artist, if_pos h]
      simp [h]
    · rw [NoOrm.delete_artist, if_neg h]
      by_cases h2 : db.artists.any (fun a => a.id == aid) = true
      · rw [if_pos h2]
        by_cases h3 : db.artist_follows.any (fun f => f.artist_id == aid) = true
        · rw [if_pos h3]
          simp [h]
        · rw [if_neg h3]
          simp [h]
      · rw [if_neg h2]
        simp [h]
  · intro hc
    by_cases h : db.albums.any (fun al => al.artist_id == aid) = true
    · rw [NoOrm.delete_artist, if_pos h]
    · exfalso
      rw [NoOrm.delete_artist, if_neg h] at hc
      by_cases h2 : db.artists.any (fun a => a.id == aid) = true
      · rw [if_pos h2] at hc
        by_cases h3 : db.artist_follows.any (fun f => f.artist_id == aid) = true
        · rw [if_pos h3] at hc
          simp at hc
        · rw [if_neg h3] at hc
          simp at hc
      · rw [if_neg h2] at hc
        simp at hc
  · by_cases h : db.songs.any (fun s => s.album_id == alid) = true
    · rw [NoOrm.delete_album, if_pos h]
      simp [h]
    · rw [NoOrm.delete_album, if_neg h]
      by_cases h2 : db.albums.any (fun a => a.id == alid) = true
      · rw [if_pos h2]
        simp [h]
      · rw [if_neg h2]
        simp [h]
  · intro hc
    by_cases h : db.songs.any (fun s => s.album_id == alid) = true
    · rw [NoOrm.delete_album, if_pos h]
    · exfalso
      rw [NoOrm.delete_album, if_neg h] at hc
      by_cases h2 : db.albums.any (fun a => a.id == alid) = true
      · rw [if_pos h2] at hc
        simp at hc
      · rw [if_neg h2] at hc
        simp at hc
  · intro hex
    constructor
    · rw [Orm.delete_artist, if_neg (by simp [hex])]
      by_cases h : odb.albums.any (fun al => al.artist_id == aid) = true
      · rw [if_pos h]
        simp [h]
      · rw [if_neg h]
        simp [h]
    · intro hc
      rw [Orm.delete_artist, if_neg (by simp [hex])] at hc ⊢
      by_cases h : odb.albums.any (fun al => al.artist_id == aid) = true
      · rw [if_pos h]
      · rw [if_neg h] at hc
        simp at hc
  · intro hex
    constructor
    · rw [Orm.delete_album, if_neg (by simp [hex])]
      by_cases h : odb.songs.any (fun s => s.album_id == alid) = true
      · rw [if_pos h]
        simp [h]
      · rw [if_neg h]
        simp [h]
    · intro hc
      rw [Orm.delete_album, if_neg (by simp [hex])] at hc ⊢
      by_cases h : odb.songs.any (fun s => s.album_id == alid) = true
      · rw [if_pos h]
      · rw [if_neg h] at hc
        simp at hc

/-- Witness for C2: artist 1 has album 1, so deleting artist 1 is refused
and the state is unchanged, in both variants. -/
theorem c2_witness :
    ((NoOrm.delete_artist dbArtistWithAlbum 1).2 = Report.conflict
      ∧ (NoOrm.delete_artist dbArtistWithAlbum 1).1 = dbArtistWithAlbum)
    ∧ ((Orm.delete_artist ormArtistWithAlbum 1).2 = Report.conflict
      ∧ (Orm.delete_artist ormArtistWithAlbum 1).1 = ormArtistWithAlbum) := by
  have hno := c2_integrity_denial dbArtistWithAlbum ormArtistWithAlbum 1 1
  have h1 : (NoOrm.delete_artist dbArtistWithAlbum 1).2 = Report.conflict :=
    hno.1.mpr (by decide)
  have horm := hno.2.2.2.2.1 (by decide)
  have h2 : (Orm.delete_artist ormArtistWithAlbum 1).2 = Report.conflict :=
    horm.1.mpr (by decide)
  exact ⟨⟨h1, hno.2.1 h1⟩, ⟨h2, horm.2 h2⟩⟩

/-! ### Claim C4 -/

/-- C4: for playlist entries, likes and follows, a second create for the
same key pair is a silent no-op: the state is unchanged, the report is the
distinct "already exists" outcome rather than an error, and exactly one row
for the pair exists afterward. -/
theorem c4_duplicate_pair_noop :
    (∀ (db : DB) (u s : Nat),
      db.users.any (fun x => x.id == u) = true →
      db.songs.any (fun x => x.id == s) = true →
      keysDistinct (fun x : LikeRow => x.user_id) (fun x => x.song_id) db.song_likes = true →
      NoOrm.add_song_like (NoOrm.add_song_like db u s).1 u s
          = ((NoOrm.add_song_like db u s).1, Report.alreadyExists)
        ∧ ((NoOrm.add_song_like db u s).1.song_likes.countP
            (fun x => x.user_id == u && x.song_id == s)) = 1)
    ∧ (∀ (db : DB) (u a : Nat),
      db.users.any (fun x => x.id == u) = true →
      db.artists.any (fun x => x.id == a) = true →
      keysDistinct (fun x : FollowRow => x.user_id) (fun x => x.artist_id)
        db.artist_follows = true →
      NoOrm.add_artist_follow (NoOrm.add_artist_follow db u a).1 u a
          = ((NoOrm.add_artist_follow db u a).1, Report.alreadyExists)
        ∧ ((NoOrm.add_artist_follow db u a).1.artist_follows.countP
            (fun x => x.user_id == u && x.artist_id == a)) = 1)
    ∧ (∀ (db : DB) (p s : Nat),
      db.playlists.any (fun x => x.id == p) = true →
      db.songs.any (fun x => x.id == s) = true →
      keysDistinct (fun x : PlaylistSongRow => x.playlist_id) (fun x => x.song_id)
        db.playlist_songs = true →
      NoOrm.add_song_to_playlist (NoOrm.add_song_to_playlist db p s).1 p s
          = ((NoOrm.add_song_to_playlist db p s).1, Report.alreadyExists)
        ∧ ((NoOrm.add_song_to_playlist db p s).1.playlist_songs.countP
            (fun x => x.playlist_id == p && x.song_id == s)) = 1)
    ∧ (∀ (db : OrmDB) (p s : Nat),
      db.playlists.any (fun x => x.id == p) = true →
      db.songs.any (fun x => x.id == s) = true →
      keysDistinct (fun x : PlaylistSongRow => x.playlist_id) (fun x => x.song_id)
        db.playlist_songs = true →
      Orm.add_song_to_playlist (Orm.add_song_to_playlist db p s).1 p s
          = ((Orm.add_song_to_playlist db p s).1, Report.alreadyExists)
        ∧ ((Orm.add_song_to_playlist db p s).1.playlist_songs.countP
            (fun x => x.playlist_id == p && x.song_id == s)) = 1) := by
  refine ⟨?_, ?_, ?_, ?_⟩
  · intro db u s hu hs hd
    by_cases hp : (db.song_likes.any fun x => x.user_id == u && x.song_id == s) = true
    · have e1 : NoOrm.add_song_like db u s = (db, Report.alreadyExists) := by
        rw [NoOrm.add_song_like, if_pos hp]
      have h1 : (NoOrm.add_song_like db u s).1 = db := by rw [e1]
      rw [h1]
      exact ⟨by rw [NoOrm.add_song_like, if_pos hp],
        Nat.le_antisymm (countP_le_one_of_keysDistinct _ _ _ u s hd)
          (one_le_countP_of_any _ _ hp)⟩
    · have hpf : (db.song_likes.any fun x => x.user_id == u && x.song_id == s) = false := by
        revert hp
        cases (db.song_likes.any fun x => x.user_id == u && x.song_id == s) <;> simp
      have hfk : ((db.users.any fun x => x.id == u) && (db.songs.any fun x => x.id == s))
          = true := by
        rw [hu, hs]
        rfl
      have e1 : NoOrm.add_song_like db u s
          = ({ db with song_likes := db.song_likes ++ [⟨u, s⟩] }, Report.ok) := by
        rw [NoOrm.add_song_like, if_neg hp, if_pos hfk]
      have h1 : (NoOrm.add_song_like db u s).1
          = { db with song_likes := db.song_likes ++ [⟨u, s⟩] } := by rw [e1]
      rw [h1]
      constructor
      · simp [NoOrm.add_song_like]
      · show (db.song_likes ++ ([⟨u, s⟩] : List LikeRow)).countP
            (fun x => x.user_id == u && x.song_id == s) = 1
        rw [List.countP_append, countP_eq_zero_of_any_eq_false _ _ hpf]
        simp [List.countP_cons]
  · intro db u a hu ha hd
    by_cases hp : (db.artist_follows.any fun x => x.user_id == u && x.artist_id == a) = true
    · have e1 : NoOrm.add_artist_follow db u a = (db, Report.alreadyExists) := by
        rw [NoOrm.add_artist_follow, if_pos hp]
      have h1 : (NoOrm.add_artist_follow db u a).1 = db := by rw [e1]
      rw [h1]
      exact ⟨by rw [NoOrm.add_artist_follow, if_pos hp],
        Nat.le_antisymm (countP_le_one_of_keysDistinct _ _ _ u a hd)
          (one_le_countP_of_any _ _ hp)⟩
    · have hpf : (db.artist_follows.any fun x => x.user_id == u && x.artist_id == a)
          = false := by
        revert hp
        cases (db.artist_follows.any fun x => x.user_id == u && x.artist_id == a) <;> simp
      have hfk : ((db.users.any fun x => x.id == u) && (db.artists.any fun x => x.id == a))
          = true := by
        rw [hu, ha]
        rfl
      have e1 : NoOrm.add_artist_follow db u a
          = ({ db with artist_follows := db.artist_follows ++ [⟨u, a⟩] }, Report.ok) := by
        rw [NoOrm.add_artist_follow, if_neg hp, if_pos hfk]
      have h1 : (NoOrm.add_artist_follow db u a).1
          = { db with artist_follows := db.artist_follows ++ [⟨u, a⟩] } := by rw [e1]
      rw [h1]
      constructor
      · simp [NoOrm.add_artist_follow]
      · show (db.artist_follows ++ ([⟨u, a⟩] : List FollowRow)).countP
            (fun x => x.user_id == u && x.artist_id == a) = 1
        rw [List.countP_append, countP_eq_zero_of_any_eq_false _ _ hpf]
        simp [List.countP_cons]
  · intro db p s hpl hsg hd
    by_cases hp : (db.playlist_songs.any fun x => x.playlist_id == p && x.song_id == s) = true
    · have e1 : NoOrm.add_song_to_playlist db p s = (db, Report.alreadyExists) := by
        rw [NoOrm.add_song_to_playlist, if_pos hp]
      have h1 : (NoOrm.add_song_to_playlist db p s).1 = db := by rw [e1]
      rw [h1]
      exact ⟨by rw [NoOrm.add_song_to_playlist, if_pos hp],
        Nat.le_antisymm (countP_le_one_of_keysDistinct _ _ _ p s hd)
          (one_le_countP_of_any _ _ hp)⟩
    · have hpf : (db.playlist_songs.any fun x => x.playlist_id == p && x.song_id == s)
          = false := by
        revert hp
        cases (db.playlist_songs.any fun x => x.playlist_id == p && x.song_id == s) <;> simp
      have hfk : ((db.playlists.any fun x => x.id == p) && (db.songs.any fun x => x.id == s))
          = true := by
        rw [hpl, hsg]
        rfl
      have e1 : NoOrm.add_song_to_playlist db p s
          = ({ db with playlist_songs := db.playlist_songs ++ [⟨p, s⟩] }, Report.ok) := by
        rw [NoOrm.add_song_to_playlist, if_neg hp, if_pos hfk]
      have h1 : (NoOrm.add_song_to_playlist db p s).1
          = { db with playlist_songs := db.playlist_songs ++ [⟨p, s⟩] } := by rw [e1]
      rw [h1]
      constructor
      · simp [NoOrm.add_song_to_playlist]
      · show (db.playlist_songs ++ ([⟨p, s⟩] : List PlaylistSongRow)).countP
            (fun x => x.playlist_id == p && x.song_id == s) = 1
        rw [List.countP_append, countP_eq_zero_of_any_eq_false _ _ hpf]
        simp [List.countP_cons]
  · intro db p s hpl hsg hd
    by_cases hp : (db.playlist_songs.any fun x => x.playlist_id == p && x.song_id == s) = true
    · have e1 : Orm.add_song_to_playlist db p s = (db, Report.alreadyExists) := by
        rw [Orm.add_song_to_playlist, if_neg (by simp [hpl]), if_neg (by simp [hsg]),
          if_pos hp]
      have h1 : (Orm.add_song_to_playlist db p s).1 = db := by rw [e1]
      rw [h1]
      exact ⟨by rw [Orm.add_song_to_playlist, if_neg (by simp [hpl]),
          if_neg (by simp [hsg]), if_pos hp],
        Nat.le_antisymm (countP_le_one_of_keysDistinct _ _ _ p s hd)
          (one_le_countP_of_any _ _ hp)⟩
    · have hpf : (db.playlist_songs.any fun x => x.playlist_id == p && x.song_id == s)
          = false := by
        revert hp
        cases (db.playlist_songs.any fun x => x.playlist_id == p && x.song_id == s) <;> simp
      have e1 : Orm.add_song_to_playlist db p s
          = ({ db with playlist_songs := db.playlist_songs ++ [⟨p, s⟩] }, Report.ok) := by
        rw [Orm.add_song_to_playlist, if_neg (by simp [hpl]), if_neg (by simp [hsg]),
          if_neg hp]
      have h1 : (Orm.add_song_to_playlist db p s).1
          = { db with playlist_songs := db.playlist_songs ++ [⟨p, s⟩] } := by rw [e1]
      rw [h1]
      constructor
      · simp [Orm.add_song_to_playlist, hpl, hsg]
      · show (db.playlist_songs ++ ([⟨p, s⟩] : List PlaylistSongRow)).countP
            (fun x => x.playlist_id == p && x.song_id == s) = 1
        rw [List.countP_append, countP_eq_zero_of_any_eq_false _ _ hpf]
        simp [List.countP_cons]

/-- Witness for C4: adding song 1 to playlist 1 twice, and liking song 1
twice, leaves one row and reports "already exists" on the second call. -/
theorem c4_witness :
    (NoOrm.add_song_like (NoOrm.add_song_like dbPlaylistReady 1 1).1 1 1
        = ((NoOrm.add_song_like dbPlaylistReady 1 1).1, Report.alreadyExists)
      ∧ ((NoOrm.add_song_like dbPlaylistReady 1 1).1.song_likes.countP
          (fun x => x.user_id == 1 && x.song_id == 1)) = 1)
    ∧ (Orm.add_song_to_playlist (Orm.add_song_to_playlist ormPlaylistReady 1 1).1 1 1
        = ((Orm.add_song_to_playlist ormPlaylistReady 1 1).1, Report.alreadyExists)
      ∧ ((Orm.add_song_to_playlist ormPlaylistReady 1 1).1.playlist_songs.countP
          (fun x => x.playlist_id == 1 && x.song_id == 1)) = 1) :=
  ⟨c4_duplicate_pair_noop.1 dbPlaylistReady 1 1 (by decide) (by decide) (by decide),
   c4_duplicate_pair_noop.2.2.2 ormPlaylistReady 1 1 (by decide) (by decide) (by decide)⟩

/-! ### Claim C9 -/

/-- C9: in the raw-query variant, deleting a song that still has a like or a
comment referencing it fails — the cascade only clears playlist entries,
play history and ratings, so the final DELETE trips the `song_likes` /
`song_comments` foreign keys — and the transaction is rolled back in full,
returning the state unchanged. -/
theorem c9_song_delete_blocked (db : DB) (sid : Nat)
    (hs : db.songs.any (fun s => s.id == sid) = true)
    (hdep : db.song_likes.any (fun l => l.song_id == sid) = true
      ∨ db.song_comments.any (fun c => c.song_id == sid) = true) :
    NoOrm.delete_song db sid = (db, Report.fkViolation) := by
  simp only [NoOrm.delete_song]
  rw [if_pos hs, if_pos (Bool.or_eq_true _ _ |>.mpr hdep)]

/-- Witness for C9: deleting song 1, which user 1 has liked, fails and
leaves the state unchanged. -/
theorem c9_witness : NoOrm.delete_song dbWithLike 1 = (dbWithLike, Report.fkViolation) :=
  c9_song_delete_blocked dbWithLike 1 (by decide) (Or.inl (by decide))

/-! ### Claim C8 -/

theorem bool_eq_false_of_not_true {b : Bool} (h : ¬(b = true)) : b = false := by
  cases b
  · rfl
  · exact absurd rfl h

/-- C8: every stored rating satisfies `1 ≤ rating ≤ 5`: the invariant is
preserved by every operation touching the ratings table in either variant
(all other operations leave that table untouched syntactically), and an
attempt to store an out-of-range rating trips the CHECK constraint —
classified `ValidationError` by spec §7 — leaving the state, hence no such
row, unchanged. -/
theorem c8_rating_range_invariant :
    (∀ (db : DB) (u s : Nat) (r : Int), ratingsInRange db.song_ratings = true →
      ratingsInRange (NoOrm.add_update_rating db u s r).1.song_ratings = true)
    ∧ (∀ (db : DB) (u s : Nat), ratingsInRange db.song_ratings = true →
      ratingsInRange (NoOrm.delete_rating db u s).1.song_ratings = true)
    ∧ (∀ (db : DB) (uid : Nat), ratingsInRange db.song_ratings = true →
      ratingsInRange (NoOrm.delete_user db uid).1.song_ratings = true)
    ∧ (∀ (db : DB) (sid : Nat), ratingsInRange db.song_ratings = true →
      ratingsInRange (NoOrm.delete_song db sid).1.song_ratings = true)
    ∧ (∀ (db : OrmDB) (u s : Nat) (r : Int), ratingsInRange db.song_ratings = true →
      ratingsInRange (Orm.add_update_rating db u s r).1.song_ratings = true)
    ∧ (∀ (db : OrmDB) (u s : Nat), ratingsInRange db.song_ratings = true →
      ratingsInRange (Orm.delete_rating db u s).1.song_ratings = true)
    ∧ (∀ (db : OrmDB) (uid : Nat), ratingsInRange db.song_ratings = true →
      ratingsInRange (Orm.delete_user db uid).1.song_ratings = true)
    ∧ (∀ (db : OrmDB) (sid : Nat), ratingsInRange db.song_ratings = true →
      ratingsInRange (Orm.delete_song db sid).1.song_ratings = true)
    ∧ (∀ (db : DB) (u s : Nat) (r : Int),
      db.users.any (fun x => x.id == u) = true →
      db.songs.any (fun x => x.id == s) = true →
      ¬(1 ≤ r ∧ r ≤ 5) →
      NoOrm.add_update_rating db u s r = (db, Report.checkViolation)
        ∧ Report.isValidationClass Report.checkViolation = true)
    ∧ (∀ (db : OrmDB) (u s : Nat) (r : Int),
      db.users.any (fun x => x.id == u) = true →
      db.songs.any (fun x => x.id == s) = true →
      ¬(1 ≤ r ∧ r ≤ 5) →
      Orm.add_update_rating db u s r = (db, Report.checkViolation)
        ∧ Report.isValidationClass Report.checkViolation = true) := by
  refine ⟨?_, ?_, ?_, ?_, ?_, ?_, ?_, ?_, ?_, ?_⟩
  · intro db u s r h
    rw [NoOrm.add_update_rating]
    by_cases hp : (db.song_ratings.any fun x => x.user_id == u && x.song_id == s) = true
    · rw [if_pos hp]
      by_cases hr : 1 ≤ r ∧ r ≤ 5
      · rw [if_pos hr]
        exact ratingsInRange_map_updRating u s r _ h hr.1 hr.2
      · rw [if_neg hr]
        exact h
    · rw [if_neg hp]
      by_cases hfk : ((db.users.any fun x => x.id == u)
          && (db.songs.any fun x => x.id == s)) = true
      · rw [if_pos hfk]
        by_cases hr : 1 ≤ r ∧ r ≤ 5
        · rw [if_pos hr]
          exact ratingsInRange_append _ _ h hr.1 hr.2
        · rw [if_neg hr]
          exact h
      · rw [if_neg hfk]
        exact h
  · intro db u s h
    rw [NoOrm.delete_rating]
    by_cases hp : (db.song_ratings.any fun x => x.user_id == u && x.song_id == s) = true
    · rw [if_pos hp]
      exact ratingsInRange_filter _ _ h
    · rw [if_neg hp]
      exact h
  · intro db uid h
    simp only [NoOrm.delete_user]
    by_cases h1 : ((db.playlists.filter fun p => p.user_id == uid).any
        fun p => db.playlist_songs.any fun ps => ps.playlist_id == p.id) = true
    · rw [if_pos h1]
      exact h
    · rw [if_neg h1]
      by_cases h2 : (db.users.any fun u => u.id == uid) = true
      · rw [if_pos h2]
        by_cases h3 : ((db.song_likes.any fun l => l.user_id == uid)
            || (db.artist_follows.any fun f => f.user_id == uid)
            || (db.song_comments.any fun c => c.user_id == uid)) = true
        · rw [if_pos h3]
          exact h
        · rw [if_neg h3]
          exact ratingsInRange_filter _ _ h
      · rw [if_neg h2]
        exact ratingsInRange_filter _ _ h
  · intro db sid h
    simp only [NoOrm.delete_song]
    by_cases h1 : (db.songs.any fun s => s.id == sid) = true
    · rw [if_pos h1]
      by_cases h2 : ((db.song_likes.any fun l => l.song_id == sid)
          || (db.song_comments.any fun c => c.song_id == sid)) = true
      · rw [if_pos h2]
        exact h
      · rw [if_neg h2]
        exact ratingsInRange_filter _ _ h
    · rw [if_neg h1]
      exact ratingsInRange_filter _ _ h
  · intro db u s r h
    rw [Orm.add_update_rating]
    by_cases hc1 : (!(db.users.any fun x => x.id == u)) = true
    · rw [if_pos hc1]
      exact h
    · rw [if_neg hc1]
      by_cases hc2 : (!(db.songs.any fun x => x.id == s)) = true
      · rw [if_pos hc2]
        exact h
      · rw [if_neg hc2]
        by_cases hp : (db.song_ratings.any fun x => x.user_id == u && x.song_id == s) = true
        · rw [if_pos hp]
          by_cases hr : 1 ≤ r ∧ r ≤ 5
          · rw [if_pos hr]
            exact ratingsInRange_map_updRating u s r _ h hr.1 hr.2
          · rw [if_neg hr]
            exact h
        · rw [if_neg hp]
          by_cases hr : 1 ≤ r ∧ r ≤ 5
          · rw [if_pos hr]
            exact ratingsInRange_append _ _ h hr.1 hr.2
          · rw [if_neg hr]
            exact h
  · intro db u s h
    rw [Orm.delete_rating]
    by_cases hp : (db.song_ratings.any fun x => x.user_id == u && x.song_id == s) = true
    · rw [if_pos hp]
      exact ratingsInRange_filter _ _ h
    · rw [if_neg hp]
      exact h
  · intro db uid h
    rw [Orm.delete_user]
    by_cases hc1 : (!(db.users.any fun u => u.id == uid)) = true
    · rw [if_pos hc1]
      exact h
    · rw [if_neg hc1]
      by_cases h2 : ((db.playlists.filter fun p => p.user_id == uid).any
          fun p => db.playlist_songs.any fun ps => ps.playlist_id == p.id) = true
      · rw [if_pos h2]
        exact h
      · rw [if_neg h2]
        exact ratingsInRange_filter _ _ h
  · intro db sid h
    rw [Orm.delete_song]
    by_cases hc1 : (!(db.songs.any fun s => s.id == sid)) = true
    · rw [if_pos hc1]
      exact h
    · rw [if_neg hc1]
      exact ratingsInRange_filter _ _ h
  · intro db u s r hu hs hr
    refine ⟨?_, rfl⟩
    rw [NoOrm.add_update_rating]
    by_cases hp : (db.song_ratings.any fun x => x.user_id == u && x.song_id == s) = true
    · rw [if_pos hp, if_neg hr]
    · rw [if_neg hp, if_pos (by rw [hu, hs]; rfl), if_neg hr]
  · intro db u s r hu hs hr
    refine ⟨?_, rfl⟩
    rw [Orm.add_update_rating, if_neg (by simp [hu]), if_neg (by simp [hs])]
    by_cases hp : (db.song_ratings.any fun x => x.user_id == u && x.song_id == s) = true
    · rw [if_pos hp, if_neg hr]
    · rw [if_neg hp, if_neg hr]

/-- Witness for C8: rating 9 (raw variant) and rating 0 (mapped variant) are
rejected with the `ValidationError` class leaving the state unchanged, and a
valid rating preserves the range invariant. -/
theorem c8_witness :
    (NoOrm.add_update_rating dbPlaylistReady 1 1 9 = (dbPlaylistReady, Report.checkViolation)
      ∧ Report.isValidationClass Report.checkViolation = true)
    ∧ (Orm.add_update_rating ormPlaylistReady 1 1 0 = (ormPlaylistReady, Report.checkViolation)
      ∧ Report.isValidationClass Report.checkViolation = true)
    ∧ ratingsInRange (NoOrm.add_update_rating dbPlaylistReady 1 1 4).1.song_ratings = true :=
  ⟨c8_rating_range_invariant.2.2.2.2.2.2.2.2.1 dbPlaylistReady 1 1 9
      (by decide) (by decide) (by decide),
   c8_rating_range_invariant.2.2.2.2.2.2.2.2.2 ormPlaylistReady 1 1 0
      (by decide) (by decide) (by decide),
   c8_rating_range_invariant.1 dbPlaylistReady 1 1 4 (by decide)⟩

/-! ### Claim C1 -/

/-- C1 counterexample: user 1's dependent rows are non-empty (a like of
song 1), yet `delete_user` removes neither the dependents nor the user: the
cascade never touches `song_likes`, the final DELETE trips its foreign key,
and the whole transaction rolls back unchanged. -/
theorem c1_counterexample :
    dbWithLike.song_likes ≠ []
    ∧ NoOrm.delete_user dbWithLike 1 = (dbWithLike, Report.fkViolation)
    ∧ (NoOrm.delete_user dbWithLike 1).2 ≠ Report.ok := by
  decide

/-- C1 (amended): the delete cascades clear only playlists, play history and
ratings for a user, playlist entries, play history and ratings for a song,
and playlist entries for a playlist; a delete that would orphan any other
dependent row fails atomically instead.  Consequently, whenever a delete of
a user, song or playlist succeeds, no dependent row referencing the deleted
entity remains, in either variant. -/
theorem c1_no_orphans_on_success :
    (∀ (db db' : DB) (uid : Nat),
      NoOrm.delete_user db uid = (db', Report.ok) → noUserOrphans db db' uid = true)
    ∧ (∀ (db db' : DB) (sid : Nat),
      NoOrm.delete_song db sid = (db', Report.ok) → noSongOrphans db' sid = true)
    ∧ (∀ (db db' : DB) (pid : Nat),
      NoOrm.delete_playlist db pid = (db', Report.ok) → noPlaylistOrphans db' pid = true)
    ∧ (∀ (db db' : OrmDB) (uid : Nat),
      Orm.delete_user db uid = (db', Report.ok) → ormNoUserOrphans db db' uid = true)
    ∧ (∀ (db db' : OrmDB) (sid : Nat),
      Orm.delete_song db sid = (db', Report.ok) → ormNoSongOrphans db' sid = true)
    ∧ (∀ (db db' : OrmDB) (pid : Nat),
      Orm.delete_playlist db pid = (db', Report.ok) → ormNoPlaylistOrphans db' pid = true) := by
  refine ⟨?_, ?_, ?_, ?_, ?_, ?_⟩
  · intro db db' uid h
    simp only [NoOrm.delete_user] at h
    by_cases h1 : ((db.playlists.filter fun p => p.user_id == uid).any
        fun p => db.playlist_songs.any fun ps => ps.playlist_id == p.id) = true
    · rw [if_pos h1] at h
      simp at h
    · rw [if_neg h1] at h
      by_cases h2 : (db.users.any fun u => u.id == uid) = true
      · rw [if_pos h2] at h
        by_cases h3 : ((db.song_likes.any fun l => l.user_id == uid)
            || (db.artist_follows.any fun f => f.user_id == uid)
            || (db.song_comments.any fun c => c.user_id == uid)) = true
        · rw [if_pos h3] at h
          simp at h
        · rw [if_neg h3] at h
          injection h with hA hB
          subst hA
          simp only [Bool.or_eq_true, not_or] at h3
          obtain ⟨⟨h3a, h3b⟩, h3c⟩ := h3
          rw [noUserOrphans]
          simp only [Bool.and_eq_true]
          refine ⟨⟨⟨⟨⟨⟨⟨?_, ?_⟩, ?_⟩, ?_⟩, ?_⟩, ?_⟩, ?_⟩, ?_⟩
          · exact all_not_of_filter (fun u => u.id == uid) db.users
          · exact all_not_of_filter (fun p => p.user_id == uid) db.playlists
          · exact all_not_of_filter (fun x => x.user_id == uid) db.play_history
          · exact all_not_of_filter (fun x => x.user_id == uid) db.song_ratings
          · exact all_not_of_any_eq_false _ _ (bool_eq_false_of_not_true h3a)
          · exact all_not_of_any_eq_false _ _ (bool_eq_false_of_not_true h3b)
          · exact all_not_of_any_eq_false _ _ (bool_eq_false_of_not_true h3c)
          · rw [List.all_eq_true]
            intro p hp
            by_cases hpu : (p.user_id == uid) = true
            · have hmem : p ∈ db.playlists.filter (fun q => q.user_id == uid) :=
                List.mem_filter.mpr ⟨hp, hpu⟩
              have h1f := bool_eq_false_of_not_true h1
              rw [List.any_eq_false] at h1f
              have hnone : (db.playlist_songs.any fun ps => ps.playlist_id == p.id)
                  = false := by
                have := h1f p hmem
                exact bool_eq_false_of_not_true (by simpa using this)
              rw [Bool.or_eq_true]
              exact Or.inr (all_not_of_any_eq_false _ _ hnone)
            · rw [Bool.or_eq_true]
              exact Or.inl (by simp [bool_eq_false_of_not_true hpu])
      · rw [if_neg h2] at h
        simp at h
  · intro db db' sid h
    simp only [NoOrm.delete_song] at h
    by_cases h1 : (db.songs.any fun s => s.id == sid) = true
    · rw [if_pos h1] at h
      by_cases h2 : ((db.song_likes.any fun l => l.song_id == sid)
          || (db.song_comments.any fun c => c.song_id == sid)) = true
      · rw [if_pos h2] at h
        simp at h
      · rw [if_neg h2] at h
        injection h with hA hB
        subst hA
        simp only [Bool.or_eq_true, not_or] at h2
        obtain ⟨h2a, h2b⟩ := h2
        rw [noSongOrphans]
        simp only [Bool.and_eq_true]
        refine ⟨⟨⟨⟨⟨?_, ?_⟩, ?_⟩, ?_⟩, ?_⟩, ?_⟩
        · exact all_not_of_filter (fun s => s.id == sid) db.songs
        · exact all_not_of_filter (fun ps => ps.song_id == sid) db.playlist_songs
        · exact all_not_of_filter (fun x => x.song_id == sid) db.play_history
        · exact all_not_of_filter (fun x => x.song_id == sid) db.song_ratings
        · exact all_not_of_any_eq_false _ _ (bool_eq_false_of_not_true h2a)
        · exact all_not_of_any_eq_false _ _ (bool_eq_false_of_not_true h2b)
    · rw [if_neg h1] at h
      simp at h
  · intro db db' pid h
    simp only [NoOrm.delete_playlist] at h
    by_cases h1 : (db.playlists.any fun p => p.id == pid) = true
    · rw [if_pos h1] at h
      injection h with hA hB
      subst hA
      rw [noPlaylistOrphans]
      simp only [Bool.and_eq_true]
      exact ⟨all_not_of_filter (fun p => p.id == pid) db.playlists,
        all_not_of_filter (fun ps => ps.playlist_id == pid) db.playlist_songs⟩
    · rw [if_neg h1] at h
      simp at h
  · intro db db' uid h
    rw [Orm.delete_user] at h
    by_cases hc1 : (!(db.users.any fun u => u.id == uid)) = true
    · rw [if_pos hc1] at h
      simp at h
    · rw [if_neg hc1] at h
      by_cases h2 : ((db.playlists.filter fun p => p.user_id == uid).any
          fun p => db.playlist_songs.any fun ps => ps.playlist_id == p.id) = true
      · rw [if_pos h2] at h
        simp at h
      · rw [if_neg h2] at h
        injection h with hA hB
        subst hA
        rw [ormNoUserOrphans]
        simp only [Bool.and_eq_true]
        refine ⟨⟨⟨⟨?_, ?_⟩, ?_⟩, ?_⟩, ?_⟩
        · exact all_not_of_filter (fun u => u.id == uid) db.users
        · exact all_not_of_filter (fun p => p.user_id == uid) db.playlists
        · exact all_not_of_filter (fun x => x.user_id == uid) db.play_history
        · exact all_not_of_filter (fun x => x.user_id == uid) db.song_ratings
        · rw [List.all_eq_true]
          intro p hp
          by_cases hpu : (p.user_id == uid) = true
          · have hmem : p ∈ db.playlists.filter (fun q => q.user_id == uid) :=
              List.mem_filter.mpr ⟨hp, hpu⟩
            have h2f := bool_eq_false_of_not_true h2
            rw [List.any_eq_false] at h2f
            have hnone : (db.playlist_songs.any fun ps => ps.playlist_id == p.id)
                = false := by
              have := h2f p hmem
              exact bool_eq_false_of_not_true (by simpa using this)
            rw [Bool.or_eq_true]
            exact Or.inr (all_not_of_any_eq_false _ _ hnone)
          · rw [Bool.or_eq_true]
            exact Or.inl (by simp [bool_eq_false_of_not_true hpu])
  · intro db db' sid h
    rw [Orm.delete_song] at h
    by_cases hc1 : (!(db.songs.any fun s => s.id == sid)) = true
    · rw [if_pos hc1] at h
      simp at h
    · rw [if_neg hc1] at h
      injection h with hA hB
      subst hA
      rw [ormNoSongOrphans]
      simp only [Bool.and_eq_true]
      refine ⟨⟨⟨?_, ?_⟩, ?_⟩, ?_⟩
      · exact all_not_of_filter (fun s => s.id == sid) db.songs
      · exact all_not_of_filter (fun ps => ps.song_id == sid) db.playlist_songs
      · exact all_not_of_filter (fun x => x.song_id == sid) db.play_history
      · exact all_not_of_filter (fun x => x.song_id == sid) db.song_ratings
  · intro db db' pid h
    rw [Orm.delete_playlist] at h
    by_cases hc1 : (!(db.playlists.any fun p => p.id == pid)) = true
    · rw [if_pos hc1] at h
      simp at h
    · rw [if_neg hc1] at h
      injection h with hA hB
      subst hA
      rw [ormNoPlaylistOrphans]
      simp only [Bool.and_eq_true]
      exact ⟨all_not_of_filter (fun p => p.id == pid) db.playlists,
        all_not_of_filter (fun ps => ps.playlist_id == pid) db.playlist_songs⟩

/-- Witness for C1 (amended): deleting user 1 — who owns an empty playlist,
a play-history row and a rating — succeeds and leaves no referencing row;
deleting song 1 in the mapped variant likewise. -/
theorem c1_witness :
    noUserOrphans dbCascadable (NoOrm.delete_user dbCascadable 1).1 1 = true
    ∧ ormNoSongOrphans (Orm.delete_song ormPlaylistReady 1).1 1 = true :=
  ⟨c1_no_orphans_on_success.1 dbCascadable (NoOrm.delete_user dbCascadable 1).1 1 (by decide),
   c1_no_orphans_on_success.2.2.2.2.1 ormPlaylistReady
     (Orm.delete_song ormPlaylistReady 1).1 1 (by decide)⟩

/-! ### Claim C10 -/

/-- C10: `validate_input` raises `ValueError` exactly when a required input
is empty or whitespace-only, the input exceeds the maximum length (the call
sites use the default 100), or the input contains one of `;` `--` `/*` `*/`
`'` `"` `\`; otherwise it returns the input stripped of surrounding
whitespace — and the returned value never contains a blocked substring, so
neither does any field value stored through it. -/
theorem c10_validate_input_spec (text : String) (maxLength : Nat) (allowEmpty : Bool) :
    (validate_input text maxLength allowEmpty = none
      ↔ ((allowEmpty = false ∧ pyStrip text = "")
          ∨ maxLength < text.length ∨ blockHit text = true))
    ∧ (∀ out, validate_input text maxLength allowEmpty = some out →
        out = pyStrip text ∧ blockHit out = false) := by
  constructor
  · rw [validate_input]
    by_cases h1 : (!allowEmpty && pyStrip text == "") = true
    · rw [if_pos h1]
      simp only [Bool.and_eq_true, Bool.not_eq_true', beq_iff_eq] at h1
      simp [h1]
    · rw [if_neg h1]
      by_cases h2 : maxLength < text.length
      · rw [if_pos h2]
        simp [h2]
      · rw [if_neg h2]
        by_cases h3 : blockHit text = true
        · rw [if_pos h3]
          simp [h3]
        · rw [if_neg h3]
          constructor
          · intro hc
            cases hc
          · rintro (⟨ha, hb⟩ | hlen | hbh)
            · exact absurd (by rw [ha, hb]; rfl : (!allowEmpty && pyStrip text == "") = true) h1
            · exact absurd hlen h2
            · exact absurd hbh h3
  · intro out hout
    rw [validate_input] at hout
    by_cases h1 : (!allowEmpty && pyStrip text == "") = true
    · rw [if_pos h1] at hout
      cases hout
    · rw [if_neg h1] at hout
      by_cases h2 : maxLength < text.length
      · rw [if_pos h2] at hout
        cases hout
      · rw [if_neg h2] at hout
        by_cases h3 : blockHit text = true
        · rw [if_pos h3] at hout
          cases hout
        · rw [if_neg h3] at hout
          injection hout with hout
          have hb : blockHit text = false := by
            revert h3
            cases blockHit text <;> simp
          refine ⟨hout.symm, ?_⟩
          rw [← hout]
          exact blockHit_pyStrip text hb

/-- Witness for C10: a padded clean input is returned stripped and clean; an
input containing a semicolon is refused. -/
theorem c10_witness :
    ("valid name" = pyStrip "  valid name  " ∧ blockHit "valid name" = false)
    ∧ validate_input "a;b" 100 false = none :=
  ⟨(c10_validate_input_spec "  valid name  " 100 false).2 "valid name" (by decide),
   (c10_validate_input_spec "a;b" 100 false).1.mpr (Or.inr (Or.inr (by decide)))⟩

example :
    (NoOrm.delete_user
      { users := [⟨1, "u", "e", "p"⟩], song_likes := [⟨1, 1⟩] } 1).2 = Report.fkViolation := by
  decide

example : validate_input "  abc  " 100 false = some "abc" := by decide

example : validate_input "a;b" 100 false = none := by decide

example : validate_input "   " 100 false = none := by decide

example : validate_input "   " 100 true = some "" := by decide
